import Mathlib

/-!
GLTexture2D (graphics/opengl/GLTexture2D.cpp)

A shallow embedding of the OpenGL texture wrapper of Arx Libertatis.

* A texture object is a record of its fields; `self` is the address of the
  object (the value of `this`), used wherever the source compares pointers.
* The renderer is passed explicitly: its capability answers, the number of
  texture stages and the stage found at each index.
* OpenGL calls are collected, in order, in a list of `GLCall`.
* `arx_assert` is an abort: the operation yields `Except.error` with the
  failed check and the calls that were emitted before it.
* Sizes, object names and bytes are natural numbers.
-/

namespace ArxLibertatis

/-! ## Enumerations and constants -/

/-- The null object name, `GL_NONE`. -/
def GL_NONE : Nat := 0

/-- The symbolic OpenGL constants the file uses. -/
inductive GLenum
  | GL_TEXTURE_2D
  | GL_REPEAT | GL_MIRRORED_REPEAT | GL_CLAMP_TO_EDGE
  | GL_NEAREST | GL_LINEAR | GL_NEAREST_MIPMAP_LINEAR | GL_LINEAR_MIPMAP_LINEAR
  | GL_INTENSITY | GL_INTENSITY8 | GL_RED
  | GL_LUMINANCE | GL_LUMINANCE8
  | GL_ALPHA | GL_ALPHA8
  | GL_LUMINANCE_ALPHA | GL_LUMINANCE8_ALPHA8
  | GL_RGB | GL_RGB8 | GL_BGR
  | GL_RGBA | GL_RGBA8 | GL_BGRA
  | GL_TEXTURE_WRAP_S | GL_TEXTURE_WRAP_T
  | GL_TEXTURE_MIN_FILTER | GL_TEXTURE_MAG_FILTER
  | GL_GENERATE_MIPMAP | GL_TEXTURE_MAX_LEVEL | GL_TEXTURE_MAX_ANISOTROPY_EXT
  | GL_TRUE | GL_UNSIGNED_BYTE
  deriving DecidableEq, Repr

/-- An integer argument of `glTexParameteri`: a symbolic constant or a literal. -/
inductive GLint
  | enum (e : GLenum)
  | lit (n : Nat)
  deriving DecidableEq, Repr

/-- `TextureStage::WrapMode`, in the order of the table `arxToGlWrapMode`. -/
inductive WrapMode
  | WrapRepeat | WrapMirror | WrapClamp
  deriving DecidableEq, Repr

/-- `TextureStage::FilterMode`, in the order of the rows of `arxToGlFilter`. -/
inductive FilterMode
  | FilterNearest | FilterLinear
  deriving DecidableEq, Repr

/-- `Image::Format`: the seven formats `Upload` names, and any other value of
the enumeration (identified by its number). -/
inductive Format
  | Format_L8 | Format_A8 | Format_L8A8
  | Format_R8G8B8 | Format_B8G8R8
  | Format_R8G8B8A8 | Format_B8G8R8A8
  | Format_Other (code : Nat)
  deriving DecidableEq, Repr

/-- Bytes per pixel of a format (0 for a format `Upload` does not name). -/
def Format.bytesPerPixel : Format → Nat
  | .Format_L8 => 1
  | .Format_A8 => 1
  | .Format_L8A8 => 2
  | .Format_R8G8B8 => 3
  | .Format_B8G8R8 => 3
  | .Format_R8G8B8A8 => 4
  | .Format_B8G8R8A8 => 4
  | .Format_Other _ => 0

/-! ## Data model -/

/-- `Vec2i`, a pair of pixel dimensions. -/
structure Vec2i where
  x : Nat
  y : Nat
  deriving DecidableEq, Repr

/-- The two bits of `flags` the file tests and clears (`HasMipmaps`,
`Intensity`), one boolean each; the remaining bits are kept as they are. -/
structure TextureFlags where
  HasMipmaps : Bool
  Intensity : Bool
  others : Nat
  deriving DecidableEq, Repr

/-- The pixel buffer `mImage`: dimensions, format tag and raw bytes. -/
structure Image where
  mWidth : Nat
  mHeight : Nat
  mFormat : Format
  mData : List Nat
  deriving DecidableEq, Repr

/-- A slot of the stage registry. `tex` and `current` are pointers to texture
objects (`none` is `NULL`); the three modes are what the stage requests. -/
structure GLTextureStage where
  tex : Option Nat
  current : Option Nat
  wrapMode : WrapMode
  minFilter : FilterMode
  magFilter : FilterMode
  deriving DecidableEq, Repr

/-- What `GLTexture2D` asks of `OpenGLRenderer`: the capability answers, the
number of texture stages and the stage at each index. -/
structure OpenGLRenderer where
  hasTextureNPOT : Bool
  hasIntensityTextures : Bool
  hasBGRTextureTransfer : Bool
  hasSizedTextureFormats : Bool
  getMaxAnisotropy : Rat
  GetTextureStageCount : Nat
  GetTextureStage : Nat → GLTextureStage

/-- The fields of a `GLTexture2D` (with those inherited from `Texture2D`). -/
structure GLTexture2D where
  self : Nat
  tex : Nat
  wrapMode : WrapMode
  minFilter : FilterMode
  magFilter : FilterMode
  isNPOT : Bool
  size : Vec2i
  storedSize : Vec2i
  flags : TextureFlags
  mFormat : Format
  mImage : Image
  deriving DecidableEq, Repr

/-- The OpenGL calls the file makes. -/
inductive GLCall
  | glGenTextures (n : Nat) (name : Nat)
  | glDeleteTextures (n : Nat) (name : Nat)
  | glBindTexture (target : GLenum) (texture : Nat)
  | glTexParameteri (target pname : GLenum) (param : GLint)
  | glTexParameterf (target pname : GLenum) (param : Rat)
  | glTexImage2D (target : GLenum) (level : Nat) (internal : GLenum)
      (width height border : Nat) (format type : GLenum) (pixels : List Nat)
  deriving DecidableEq, Repr

/-- The checks that can stop an operation. -/
inductive Fault
  | leakingTexture
  | uploadWithoutHandle
  | intensityNotL8
  | unsupportedFormat (f : Format)
  | stageIsNull
  | stageNotBound
  | readOutOfBounds (index : Nat)
  | writeOutOfBounds (index : Nat)
  deriving DecidableEq, Repr

/-- An aborted operation: the failed check and the calls emitted before it. -/
structure Abort where
  fault : Fault
  emitted : List GLCall
  deriving DecidableEq, Repr

/-- `glTexParameteri` and `glTexParameterf` are the parameter calls. -/
def GLCall.isParameterCall : GLCall → Bool
  | .glTexParameteri _ _ _ => true
  | .glTexParameterf _ _ _ => true
  | _ => false

/-! ## Helpers that live outside the file -/

/-- Doubling search used by `GetNextPowerOf2`: the first of `p, 2p, 4p, ...`
that reaches `n`, looking at most `fuel` times. -/
def nextPowerFrom (n : Nat) : Nat → Nat → Nat
  | 0, p => p
  | fuel + 1, p => if n ≤ p then p else nextPowerFrom n fuel (2 * p)

/-- Modelled from the spec: `GetNextPowerOf2` is declared in graphics/Math.h,
which is not among the sources. The spec says each axis "is rounded up to the
next power of two": the least power of two that is not below `n`. -/
def GetNextPowerOf2 (n : Nat) : Nat :=
  nextPowerFrom n n 1

/-! ## GLTexture2D::Create -/

/-- `GLTexture2D::Create`. `gen` is the name `glGenTextures` writes into `tex`. -/
def GLTexture2D.Create (renderer : OpenGLRenderer) (gen : Nat) (t : GLTexture2D) :
    Except Abort (GLTexture2D × Bool × List GLCall) :=
  if t.tex ≠ GL_NONE then
    .error ⟨.leakingTexture, []⟩
  else
    let nextPowerOfTwo : Vec2i := ⟨GetNextPowerOf2 t.size.x, GetNextPowerOf2 t.size.y⟩
    let t1 : GLTexture2D :=
      { t with
        tex := gen
        wrapMode := .WrapRepeat
        minFilter := .FilterNearest
        magFilter := .FilterLinear
        storedSize := if renderer.hasTextureNPOT then t.size else nextPowerOfTwo
        isNPOT := decide (t.size ≠ nextPowerOfTwo) }
    .ok (t1, decide (t1.tex ≠ GL_NONE), [.glGenTextures 1 gen])

/-! ## GLTexture2D::Destroy -/

/-- The body of the loop of `Destroy` for one stage. -/
def scrubStage (self : Nat) (stage : GLTextureStage) : GLTextureStage :=
  let s1 := if stage.tex = some self then { stage with tex := none } else stage
  if s1.current = some self then { s1 with current := none } else s1

/-- `GLTexture2D::Destroy`: the new texture state, the new renderer and the
calls made. The loop visits the stages `i < GetTextureStageCount()`. -/
def GLTexture2D.Destroy (renderer : OpenGLRenderer) (t : GLTexture2D) :
    GLTexture2D × OpenGLRenderer × List GLCall :=
  let released : GLTexture2D × List GLCall :=
    if t.tex ≠ 0 then ({ t with tex := GL_NONE }, [.glDeleteTextures 1 t.tex]) else (t, [])
  let renderer1 : OpenGLRenderer :=
    { renderer with
      GetTextureStage := fun i =>
        if i < renderer.GetTextureStageCount then scrubStage t.self (renderer.GetTextureStage i)
        else renderer.GetTextureStage i }
  (released.1, renderer1, released.2)

/-! ## GLTexture2D::apply -/

/-- The table `arxToGlWrapMode`. -/
def arxToGlWrapMode : WrapMode → GLenum
  | .WrapRepeat => .GL_REPEAT
  | .WrapMirror => .GL_MIRRORED_REPEAT
  | .WrapClamp => .GL_CLAMP_TO_EDGE

/-- The table `arxToGlFilter`: row 0 without mipmaps, row 1 with mipmaps. -/
def arxToGlFilter : Nat → FilterMode → GLenum
  | 0, .FilterNearest => .GL_NEAREST
  | 0, .FilterLinear => .GL_LINEAR
  | _ + 1, .FilterNearest => .GL_NEAREST_MIPMAP_LINEAR
  | _ + 1, .FilterLinear => .GL_LINEAR_MIPMAP_LINEAR

/-- `Texture2D::hasMipmaps`: the `HasMipmaps` bit of `flags`. -/
def GLTexture2D.hasMipmaps (t : GLTexture2D) : Bool :=
  t.flags.HasMipmaps

/-- The wrap-mode block of `apply`. -/
def applyWrap (stage : GLTextureStage) (t : GLTexture2D) : GLTexture2D × List GLCall :=
  let newWrapMode : WrapMode := if !t.isNPOT then stage.wrapMode else .WrapClamp
  if newWrapMode ≠ t.wrapMode then
    let glwrap := arxToGlWrapMode newWrapMode
    ({ t with wrapMode := newWrapMode },
      [.glTexParameteri .GL_TEXTURE_2D .GL_TEXTURE_WRAP_T (.enum glwrap),
       .glTexParameteri .GL_TEXTURE_2D .GL_TEXTURE_WRAP_S (.enum glwrap)])
  else (t, [])

/-- The min-filter block of `apply`. -/
def applyMinFilter (stage : GLTextureStage) (t : GLTexture2D) : GLTexture2D × List GLCall :=
  if stage.minFilter ≠ t.minFilter then
    let mipFilter : Nat := if t.hasMipmaps then 1 else 0
    ({ t with minFilter := stage.minFilter },
      [.glTexParameteri .GL_TEXTURE_2D .GL_TEXTURE_MIN_FILTER
        (.enum (arxToGlFilter mipFilter stage.minFilter))])
  else (t, [])

/-- The mag-filter block of `apply`. -/
def applyMagFilter (stage : GLTextureStage) (t : GLTexture2D) : GLTexture2D × List GLCall :=
  if stage.magFilter ≠ t.magFilter then
    ({ t with magFilter := stage.magFilter },
      [.glTexParameteri .GL_TEXTURE_2D .GL_TEXTURE_MAG_FILTER
        (.enum (arxToGlFilter 0 stage.magFilter))])
  else (t, [])

/-- `GLTexture2D::apply`. The argument is the pointer `stage` (`none` is `NULL`). -/
def GLTexture2D.apply (stage : Option GLTextureStage) (t : GLTexture2D) :
    Except Abort (GLTexture2D × List GLCall) :=
  match stage with
  | none => .error ⟨.stageIsNull, []⟩
  | some s =>
    if s.tex ≠ some t.self then
      .error ⟨.stageNotBound, []⟩
    else
      let w := applyWrap s t
      let mn := applyMinFilter s w.1
      let mg := applyMagFilter s mn.1
      .ok (mg.1, w.2 ++ mn.2 ++ mg.2)

/-! ## The pixel buffer (`Image`, graphics/image/Image.h) -/

/-- Modelled from the spec: `Image::Create` is not among the sources. The spec
lists "allocate/resize to a given format and dimensions": a buffer of
`width * height * bytesPerPixel` bytes. -/
def Image.Create (width height : Nat) (format : Format) : Image :=
  { mWidth := width
    mHeight := height
    mFormat := format
    mData := List.replicate (width * height * format.bytesPerPixel) 0 }

/-- Exchange channels 0 and 2 of every three-byte pixel. -/
def swapChannels3 : List Nat → List Nat
  | c0 :: c1 :: c2 :: rest => c2 :: c1 :: c0 :: swapChannels3 rest
  | rest => rest

/-- Exchange channels 0 and 2 of every four-byte pixel; channel 3 stays. -/
def swapChannels4 : List Nat → List Nat
  | c0 :: c1 :: c2 :: c3 :: rest => c2 :: c1 :: c0 :: c3 :: swapChannels4 rest
  | rest => rest

/-- Modelled from the spec: `Image::ConvertTo` is not among the sources. The
spec describes the two conversions `Upload` asks for: BGR to RGB and BGRA to
RGBA, "of equal pixel count with channels 0 and 2 swapped per pixel, leaving
the alpha channel (if present) unchanged". Other conversions are never
requested by `Upload`; for them only the tag is rewritten here. -/
def Image.ConvertTo (img : Image) (format : Format) : Image :=
  match img.mFormat, format with
  | .Format_B8G8R8, .Format_R8G8B8 =>
    { img with mFormat := format, mData := swapChannels3 img.mData }
  | .Format_B8G8R8A8, .Format_R8G8B8A8 =>
    { img with mFormat := format, mData := swapChannels4 img.mData }
  | _, _ => { img with mFormat := format }

/-- Modelled from the spec: `Image::extendClampToEdgeBorder` is not among the
sources. The spec says it fills "an extended buffer of `storedSize` whose
border pixels are clamped copies of the source edge": the pixel at `(x, y)` of
the destination is the source pixel at `(min x (w - 1), min y (h - 1))`. -/
def Image.extendClampToEdgeBorder (dst src : Image) : Image :=
  let bpp := dst.mFormat.bytesPerPixel
  { dst with
    mData :=
      (List.range dst.mHeight).flatMap fun y =>
        (List.range dst.mWidth).flatMap fun x =>
          (List.range bpp).map fun c =>
            src.mData.getD
              ((min y (src.mHeight - 1) * src.mWidth + min x (src.mWidth - 1)) * bpp + c) 0 }

/-! ## GLTexture2D::Upload -/

/-- The loop of the intensity fallback: `count` iterations are left, `i` bytes
have been read from `input` and `2 * i` bytes written to `output`. Every
access outside its buffer stops the loop. -/
def intensityLoop (input : List Nat) : Nat → Nat → List Nat → Except Fault (List Nat)
  | 0, _, output => .ok output
  | count + 1, i, output =>
    match input[i]? with
    | none => .error (.readOutOfBounds i)
    | some b =>
      if output.length ≤ 2 * i then .error (.writeOutOfBounds (2 * i))
      else if output.length ≤ 2 * i + 1 then .error (.writeOutOfBounds (2 * i + 1))
      else intensityLoop input count (i + 1) ((output.set (2 * i) b).set (2 * i + 1) b)

/-- The block "I8 to L8A8" of `Upload`. -/
def uploadIntensity (renderer : OpenGLRenderer) (t : GLTexture2D) : Except Fault GLTexture2D :=
  if !renderer.hasIntensityTextures && t.flags.Intensity then
    if t.mFormat ≠ .Format_L8 then .error .intensityNotL8
    else
      let converted := Image.Create t.storedSize.x t.storedSize.y .Format_L8A8
      match intensityLoop t.mImage.mData (t.storedSize.x * t.storedSize.y) 0 converted.mData with
      | .error f => .error f
      | .ok output =>
        .ok { t with
              mImage := { converted with mData := output }
              mFormat := .Format_L8A8
              flags := { t.flags with Intensity := false } }
  else .ok t

/-- The BGR block of `Upload`. -/
def uploadBGR (renderer : OpenGLRenderer) (t : GLTexture2D) : GLTexture2D :=
  if !renderer.hasBGRTextureTransfer
      && (t.mFormat = .Format_B8G8R8 || t.mFormat = .Format_B8G8R8A8) then
    let rgbFormat : Format :=
      if t.mFormat = .Format_B8G8R8 then .Format_R8G8B8 else .Format_R8G8B8A8
    { t with mImage := t.mImage.ConvertTo rgbFormat, mFormat := rgbFormat }
  else t

/-- The format chain of `Upload`: `(internalUnsized, internalSized, format)`,
or `none` where the source reaches `arx_assert_msg(false, ...)`. -/
def uploadFormats (t : GLTexture2D) : Option (GLenum × GLenum × GLenum) :=
  if t.flags.Intensity then some (.GL_INTENSITY, .GL_INTENSITY8, .GL_RED)
  else match t.mFormat with
    | .Format_L8 => some (.GL_LUMINANCE, .GL_LUMINANCE8, .GL_LUMINANCE)
    | .Format_A8 => some (.GL_ALPHA, .GL_ALPHA8, .GL_ALPHA)
    | .Format_L8A8 => some (.GL_LUMINANCE_ALPHA, .GL_LUMINANCE8_ALPHA8, .GL_LUMINANCE_ALPHA)
    | .Format_R8G8B8 => some (.GL_RGB, .GL_RGB8, .GL_RGB)
    | .Format_B8G8R8 => some (.GL_RGB, .GL_RGB8, .GL_BGR)
    | .Format_R8G8B8A8 => some (.GL_RGBA, .GL_RGBA8, .GL_RGBA)
    | .Format_B8G8R8A8 => some (.GL_RGBA, .GL_RGBA8, .GL_BGRA)
    | .Format_Other _ => none

/-- The mipmap block of `Upload`: the flag is cleared on a texture whose
`storedSize` differs from `size`, then the parameter calls are made. -/
def uploadMipmaps (renderer : OpenGLRenderer) (t : GLTexture2D) : GLTexture2D × List GLCall :=
  let t1 : GLTexture2D :=
    if t.storedSize ≠ t.size then { t with flags := { t.flags with HasMipmaps := false } } else t
  if t1.hasMipmaps then
    (t1, [GLCall.glTexParameteri .GL_TEXTURE_2D .GL_GENERATE_MIPMAP (.enum .GL_TRUE)]
      ++ (if renderer.getMaxAnisotropy > 1 then
            [GLCall.glTexParameterf .GL_TEXTURE_2D .GL_TEXTURE_MAX_ANISOTROPY_EXT
              renderer.getMaxAnisotropy]
          else []))
  else
    (t1, [GLCall.glTexParameteri .GL_TEXTURE_2D .GL_TEXTURE_MAX_LEVEL (.lit 0)])

/-- The transfer at the end of `Upload`. -/
def uploadTransfer (t : GLTexture2D) (internal format : GLenum) : GLCall :=
  if t.storedSize ≠ t.size then
    let extended :=
      (Image.Create t.storedSize.x t.storedSize.y t.mImage.mFormat).extendClampToEdgeBorder t.mImage
    .glTexImage2D .GL_TEXTURE_2D 0 internal t.storedSize.x t.storedSize.y 0 format
      .GL_UNSIGNED_BYTE extended.mData
  else
    .glTexImage2D .GL_TEXTURE_2D 0 internal t.size.x t.size.y 0 format
      .GL_UNSIGNED_BYTE t.mImage.mData

/-- `GLTexture2D::Upload`: the new texture state, the new renderer (stage 0
records the texture as current) and the calls made. -/
def GLTexture2D.Upload (renderer : OpenGLRenderer) (t : GLTexture2D) :
    Except Abort (GLTexture2D × OpenGLRenderer × List GLCall) :=
  if t.tex = GL_NONE then
    .error ⟨.uploadWithoutHandle, []⟩
  else
    let bound : List GLCall := [.glBindTexture .GL_TEXTURE_2D t.tex]
    let renderer1 : OpenGLRenderer :=
      { renderer with
        GetTextureStage :=
          Function.update renderer.GetTextureStage 0
            { renderer.GetTextureStage 0 with current := some t.self } }
    match uploadIntensity renderer t with
    | .error f => .error ⟨f, bound⟩
    | .ok t1 =>
      let t2 := uploadBGR renderer t1
      match uploadFormats t2 with
      | none => .error ⟨.unsupportedFormat t2.mFormat, bound⟩
      | some (internalUnsized, internalSized, format) =>
        let internal := if renderer.hasSizedTextureFormats then internalSized else internalUnsized
        let m := uploadMipmaps renderer t2
        .ok (m.1, renderer1, bound ++ m.2 ++ [uploadTransfer m.1 internal format])

/-- `GLTexture2D::updateMaxAnisotropy`: the texture state (no field is
assigned), the new renderer and the calls made. -/
def GLTexture2D.updateMaxAnisotropy (renderer : OpenGLRenderer) (t : GLTexture2D) :
    GLTexture2D × OpenGLRenderer × List GLCall :=
  if t.hasMipmaps then
    (t,
     { renderer with
       GetTextureStage :=
         Function.update renderer.GetTextureStage 0
           { renderer.GetTextureStage 0 with current := some t.self } },
     [.glBindTexture .GL_TEXTURE_2D t.tex,
      .glTexParameterf .GL_TEXTURE_2D .GL_TEXTURE_MAX_ANISOTROPY_EXT renderer.getMaxAnisotropy])
  else (t, renderer, [])

/-- `GLTexture2D::~GLTexture2D`: the destructor calls `Destroy()`. -/
def GLTexture2D.destruct (renderer : OpenGLRenderer) (t : GLTexture2D) :
    GLTexture2D × OpenGLRenderer × List GLCall :=
  t.Destroy renderer

/-- The indices of `input` the loop of the intensity fallback dereferences, in
order: `input` is advanced once per iteration, from index `i`, `count` times. -/
def intensityLoopReads : Nat → Nat → List Nat
  | 0, _ => []
  | count + 1, i => i :: intensityLoopReads count (i + 1)

/-- The indices of `output` the loop of the intensity fallback assigns, in
order: `output` is advanced twice per iteration, from index `2 * i`. -/
def intensityLoopWrites : Nat → Nat → List Nat
  | 0, _ => []
  | count + 1, i => 2 * i :: (2 * i + 1) :: intensityLoopWrites count (i + 1)

/-- The value of the last `GL_TEXTURE_MIN_FILTER` call in a list of calls. -/
def lastMinFilterSent : List GLCall → Option GLint
  | [] => none
  | .glTexParameteri _ .GL_TEXTURE_MIN_FILTER param :: rest =>
    (lastMinFilterSent rest).orElse fun _ => some param
  | _ :: rest => lastMinFilterSent rest

/-! ## Concrete states used as examples -/

/-- A stage that references no texture and requests repeat/linear/linear. -/
def emptyStage : GLTextureStage :=
  { tex := none, current := none, wrapMode := .WrapRepeat,
    minFilter := .FilterLinear, magFilter := .FilterLinear }

/-- A renderer without any of the optional capabilities, with two empty stages. -/
def legacyRenderer : OpenGLRenderer :=
  { hasTextureNPOT := false
    hasIntensityTextures := false
    hasBGRTextureTransfer := false
    hasSizedTextureFormats := false
    getMaxAnisotropy := 1
    GetTextureStageCount := 2
    GetTextureStage := fun _ => emptyStage }

/-- The same renderer with support for textures of any size. -/
def npotRenderer : OpenGLRenderer :=
  { legacyRenderer with hasTextureNPOT := true }

/-- A texture object as the constructor leaves it, at address `self`, with the
given logical size, flags and image. -/
def newTexture (self : Nat) (size : Vec2i) (flags : TextureFlags) (image : Image) : GLTexture2D :=
  { self := self
    tex := GL_NONE
    wrapMode := .WrapRepeat
    minFilter := .FilterLinear
    magFilter := .FilterNearest
    isNPOT := false
    size := size
    storedSize := ⟨0, 0⟩
    flags := flags
    mFormat := image.mFormat
    mImage := image }

/-- A 3x3 single-channel image with bytes 10, 11, ..., 18. -/
def gray3x3 : Image :=
  { mWidth := 3, mHeight := 3, mFormat := .Format_L8
    mData := [10, 11, 12, 13, 14, 15, 16, 17, 18] }

/-- A 2x1 BGR image. -/
def bgr2x1 : Image :=
  { mWidth := 2, mHeight := 1, mFormat := .Format_B8G8R8
    mData := [1, 2, 3, 4, 5, 6] }

/-- A stage like `emptyStage` whose bound texture is the object at `self`. -/
def boundStage (self : Nat) : GLTextureStage :=
  { emptyStage with tex := some self }

/-- A live 2x1 BGR texture with no flag set. -/
def bgrTexture : GLTexture2D :=
  { newTexture 100 ⟨2, 1⟩ ⟨false, false, 0⟩ bgr2x1 with tex := 1, storedSize := ⟨2, 1⟩ }

/-- The renderer of `legacyRenderer` with native intensity textures. -/
def intensityRenderer : OpenGLRenderer :=
  { legacyRenderer with hasIntensityTextures := true }

/-- A renderer like `legacyRenderer` whose stage 0 is bound to the object at 100
and requests repeat/linear/linear, with sized formats and 16x anisotropy. -/
def boundRenderer : OpenGLRenderer :=
  { legacyRenderer with
    hasSizedTextureFormats := true
    getMaxAnisotropy := 16
    GetTextureStage := fun i => if i = 0 then boundStage 100 else emptyStage }

/-- A 2x2 image in a format `Upload` does not name (number 7 of the enumeration). -/
def other2x2 : Image :=
  { mWidth := 2, mHeight := 2, mFormat := .Format_Other 7
    mData := [1, 2, 3, 4] }

/-- A live 2x2 texture of the unnamed format whose `Intensity` flag is set. -/
def otherIntensityTexture : GLTexture2D :=
  { newTexture 100 ⟨2, 2⟩ ⟨false, true, 0⟩ other2x2 with tex := 1, storedSize := ⟨2, 2⟩ }

/-- A live 3x3 single-channel texture with mipmaps, padded to 4x4. -/
def paddedGrayTexture : GLTexture2D :=
  { newTexture 100 ⟨3, 3⟩ ⟨true, false, 0⟩ gray3x3 with
    tex := 1, storedSize := ⟨4, 4⟩, isNPOT := true }

/-- A 2x2 single-channel image. -/
def gray2x2 : Image :=
  { mWidth := 2, mHeight := 2, mFormat := .Format_L8
    mData := [10, 11, 12, 13] }

/-- A live 2x2 single-channel texture with mipmaps and the `Intensity` flag. -/
def intensityTexture : GLTexture2D :=
  { newTexture 100 ⟨2, 2⟩ ⟨true, true, 0⟩ gray2x2 with tex := 1, storedSize := ⟨2, 2⟩ }

/-- What the scenario of `minFilterScenario` reports. -/
structure MinFilterReport where
  padded : Bool
  mipmapsAtCreate : Bool
  secondApplyCalls : List GLCall
  lastSent : Option GLint
  mipmapsNow : Bool
  cachedNow : FilterMode
  tableNow : GLenum
  deriving DecidableEq, Repr

/-- The sequence `Create()`, `apply(stage)`, `Upload()`, `apply(stage)` on a 3x3
texture with `HasMipmaps` set, on `boundRenderer` (no NPOT support), where
`stage` is slot 0 of the registry and requests `FilterLinear`. -/
def minFilterScenario : Except Abort MinFilterReport :=
  (GLTexture2D.Create boundRenderer 1 (newTexture 100 ⟨3, 3⟩ ⟨true, false, 0⟩ gray3x3)).bind
    fun created =>
  (created.1.apply (some (boundRenderer.GetTextureStage 0))).bind fun applied1 =>
  (applied1.1.Upload boundRenderer).bind fun uploaded =>
  (uploaded.1.apply (some (uploaded.2.1.GetTextureStage 0))).bind fun applied2 =>
  .ok { padded := decide (created.1.storedSize ≠ created.1.size)
        mipmapsAtCreate := created.1.hasMipmaps
        secondApplyCalls := applied2.2
        lastSent := lastMinFilterSent (created.2.2 ++ applied1.2 ++ uploaded.2.2 ++ applied2.2)
        mipmapsNow := applied2.1.hasMipmaps
        cachedNow := applied2.1.minFilter
        tableNow := arxToGlFilter (if applied2.1.hasMipmaps then 1 else 0) applied2.1.minFilter }

/-- The number `p` is the least power of two that is not below `n`. -/
def IsNextPowerOfTwo (n p : Nat) : Prop :=
  (∃ k, p = 2 ^ k) ∧ n ≤ p ∧ ∀ q, (∃ k, q = 2 ^ k) → n ≤ q → p ≤ q

/-! ## The power-of-two helper -/

theorem nextPowerFrom_pow (n : Nat) :
    ∀ fuel p, (∃ j, p = 2 ^ j) → ∃ k, nextPowerFrom n fuel p = 2 ^ k := by
  intro fuel
  induction fuel with
  | zero => intro p hp; simpa [nextPowerFrom] using hp
  | succ fuel ih =>
    intro p hp
    unfold nextPowerFrom
    split
    · exact hp
    · obtain ⟨j, rfl⟩ := hp
      exact ih _ ⟨j + 1, by rw [pow_succ, mul_comm]⟩

theorem nextPowerFrom_ge (n : Nat) :
    ∀ fuel p, n ≤ p * 2 ^ fuel → n ≤ nextPowerFrom n fuel p := by
  intro fuel
  induction fuel with
  | zero => intro p hp; simpa [nextPowerFrom] using hp
  | succ fuel ih =>
    intro p hp
    unfold nextPowerFrom
    split
    · assumption
    · apply ih
      calc n ≤ p * 2 ^ (fuel + 1) := hp
        _ = 2 * p * 2 ^ fuel := by rw [pow_succ]; ring

theorem nextPowerFrom_least (n : Nat) :
    ∀ fuel p, (∃ j, p = 2 ^ j) → (∀ q, (∃ k, q = 2 ^ k) → n ≤ q → p ≤ q) →
      ∀ q, (∃ k, q = 2 ^ k) → n ≤ q → nextPowerFrom n fuel p ≤ q := by
  intro fuel
  induction fuel with
  | zero => intro p _ hmin; simpa [nextPowerFrom] using hmin
  | succ fuel ih =>
    intro p hp hmin
    unfold nextPowerFrom
    split
    · exact hmin
    · rename_i hlt
      obtain ⟨j, rfl⟩ := hp
      apply ih _ ⟨j + 1, by rw [pow_succ, mul_comm]⟩
      rintro q ⟨m, rfl⟩ hq
      have hjm : j < m := by
        by_contra hcon
        have : 2 ^ m ≤ 2 ^ j := Nat.pow_le_pow_right (by decide) (Nat.le_of_not_lt hcon)
        omega
      calc 2 * 2 ^ j = 2 ^ (j + 1) := by rw [pow_succ, mul_comm]
        _ ≤ 2 ^ m := Nat.pow_le_pow_right (by decide) hjm

theorem GetNextPowerOf2_spec (n : Nat) : IsNextPowerOfTwo n (GetNextPowerOf2 n) := by
  refine ⟨?_, ?_, ?_⟩
  · exact nextPowerFrom_pow n n 1 ⟨0, rfl⟩
  · apply nextPowerFrom_ge
    have := Nat.lt_two_pow n
    omega
  · apply nextPowerFrom_least n n 1 ⟨0, rfl⟩
    rintro q ⟨k, rfl⟩ _
    exact Nat.one_le_two_pow

theorem GetNextPowerOf2_eq_self_iff (n : Nat) : GetNextPowerOf2 n = n ↔ ∃ k, n = 2 ^ k := by
  obtain ⟨hpow, hge, hmin⟩ := GetNextPowerOf2_spec n
  constructor
  · intro h
    rw [h] at hpow
    exact hpow
  · intro h
    exact Nat.le_antisymm (hmin n h (Nat.le_refl n)) hge

theorem not_pow_two_three : ¬ ∃ k, 3 = 2 ^ k := by
  rintro ⟨k, hk⟩
  rcases k with _ | _ | k
  · simp at hk
  · simp at hk
  · have : 4 ≤ 2 ^ (k + 1 + 1) := by
      have := Nat.one_le_two_pow (n := k)
      rw [pow_succ, pow_succ]
      omega
    omega

theorem size_eq_next_iff (v : Vec2i) :
    v = ⟨GetNextPowerOf2 v.x, GetNextPowerOf2 v.y⟩ ↔ (∃ k, v.x = 2 ^ k) ∧ (∃ k, v.y = 2 ^ k) := by
  rw [← GetNextPowerOf2_eq_self_iff, ← GetNextPowerOf2_eq_self_iff]
  constructor
  · intro h
    exact ⟨(congrArg Vec2i.x h).symm, (congrArg Vec2i.y h).symm⟩
  · rintro ⟨hx, hy⟩
    rw [hx, hy]

/-! ## Destroy -/

theorem scrubStage_tex (self : Nat) (stage : GLTextureStage) :
    (scrubStage self stage).tex ≠ some self := by
  unfold scrubStage
  by_cases h1 : stage.tex = some self <;> by_cases h2 : stage.current = some self <;>
    simp [h1, h2]

theorem scrubStage_current (self : Nat) (stage : GLTextureStage) :
    (scrubStage self stage).current ≠ some self := by
  unfold scrubStage
  by_cases h1 : stage.tex = some self <;> by_cases h2 : stage.current = some self <;>
    simp [h1, h2]

/-- C1: after `Destroy()` the handle is `GL_NONE`, and no slot `i` below
`GetTextureStageCount()` has its `tex` or `current` reference equal to the
destroyed object, whatever the texture, the renderer and the registry were. -/
theorem Destroy_clears_handle_and_references (renderer : OpenGLRenderer) (t : GLTexture2D) :
    (t.Destroy renderer).1.tex = GL_NONE ∧
    ∀ i, i < (t.Destroy renderer).2.1.GetTextureStageCount →
      ((t.Destroy renderer).2.1.GetTextureStage i).tex ≠ some t.self ∧
      ((t.Destroy renderer).2.1.GetTextureStage i).current ≠ some t.self := by
  constructor
  · unfold GLTexture2D.Destroy
    by_cases h : t.tex = 0
    · simp [h, GL_NONE]
    · simp [h]
  · intro i hi
    have hi' : i < renderer.GetTextureStageCount := hi
    simp only [GLTexture2D.Destroy, hi', if_true]
    exact ⟨scrubStage_tex _ _, scrubStage_current _ _⟩

/-! ## Create -/

theorem Create_of_free (renderer : OpenGLRenderer) (gen : Nat) (t : GLTexture2D)
    (hfree : t.tex = GL_NONE) :
    t.Create renderer gen =
      .ok ({ t with
             tex := gen
             wrapMode := .WrapRepeat
             minFilter := .FilterNearest
             magFilter := .FilterLinear
             storedSize :=
               if renderer.hasTextureNPOT then t.size
               else ⟨GetNextPowerOf2 t.size.x, GetNextPowerOf2 t.size.y⟩
             isNPOT := decide (t.size ≠ ⟨GetNextPowerOf2 t.size.x, GetNextPowerOf2 t.size.y⟩) },
           decide (gen ≠ GL_NONE), [.glGenTextures 1 gen]) := by
  simp [GLTexture2D.Create, hfree]

theorem Create_ok_inv (renderer : OpenGLRenderer) (gen : Nat) (t t1 : GLTexture2D) (ret : Bool)
    (calls : List GLCall) (h : t.Create renderer gen = .ok (t1, ret, calls)) :
    t.tex = GL_NONE ∧ t1.size = t.size ∧
      t1.storedSize = (if renderer.hasTextureNPOT then t.size
        else ⟨GetNextPowerOf2 t.size.x, GetNextPowerOf2 t.size.y⟩) ∧
      t1.isNPOT = decide (t.size ≠ ⟨GetNextPowerOf2 t.size.x, GetNextPowerOf2 t.size.y⟩) := by
  by_cases hfree : t.tex = GL_NONE
  · rw [Create_of_free renderer gen t hfree] at h
    injection h with h
    injection h with h1 h2
    subst h1
    exact ⟨hfree, rfl, rfl, rfl⟩
  · simp [GLTexture2D.Create, hfree] at h

theorem Create_padded_flag (renderer : OpenGLRenderer) (gen : Nat) (t t1 : GLTexture2D)
    (ret : Bool) (calls : List GLCall) (h : t.Create renderer gen = .ok (t1, ret, calls))
    (hpad : t1.storedSize ≠ t1.size) : t1.isNPOT = true := by
  obtain ⟨_, hsize, hstored, hflag⟩ := Create_ok_inv renderer gen t t1 ret calls h
  rw [hflag, decide_eq_true_eq]
  intro heq
  apply hpad
  rw [hstored, hsize]
  by_cases hcap : renderer.hasTextureNPOT = true
  · simp [hcap]
  · simp only [hcap, if_false]
    exact heq.symm

theorem Create_unflagged_not_padded (renderer : OpenGLRenderer) (gen : Nat) (t t1 : GLTexture2D)
    (ret : Bool) (calls : List GLCall) (h : t.Create renderer gen = .ok (t1, ret, calls))
    (hflag : t1.isNPOT = false) : t1.storedSize = t1.size := by
  by_contra hne
  have := Create_padded_flag renderer gen t t1 ret calls h hne
  rw [hflag] at this
  exact Bool.noConfusion this

/-- C2: without NPOT support, a logical size with a side that is not a power
of two is stored at the next power of two on each axis, and the padded flag
`isNPOT` is set. -/
theorem Create_rounds_up_without_npot (renderer : OpenGLRenderer) (gen : Nat) (t : GLTexture2D)
    (hfree : t.tex = GL_NONE) (_hw : 1 ≤ t.size.x) (_hh : 1 ≤ t.size.y)
    (hsize : ¬ ((∃ k, t.size.x = 2 ^ k) ∧ (∃ k, t.size.y = 2 ^ k)))
    (hcap : renderer.hasTextureNPOT = false) :
    ∃ t1 ret calls, t.Create renderer gen = .ok (t1, ret, calls) ∧
      IsNextPowerOfTwo t.size.x t1.storedSize.x ∧
      IsNextPowerOfTwo t.size.y t1.storedSize.y ∧
      t1.isNPOT = true := by
  refine ⟨_, _, _, Create_of_free renderer gen t hfree, ?_, ?_, ?_⟩
  · simpa [hcap] using GetNextPowerOf2_spec t.size.x
  · simpa [hcap] using GetNextPowerOf2_spec t.size.y
  · simp only [decide_eq_true_eq]
    intro heq
    exact hsize ((size_eq_next_iff t.size).1 heq)

/-- Witness of C2: a 3x3 texture on a renderer without NPOT support. -/
theorem Create_rounds_up_without_npot_witness :
    ∃ t1 ret calls,
      (newTexture 100 ⟨3, 3⟩ ⟨false, false, 0⟩ gray3x3).Create legacyRenderer 1
        = .ok (t1, ret, calls) ∧
      IsNextPowerOfTwo 3 t1.storedSize.x ∧ IsNextPowerOfTwo 3 t1.storedSize.y ∧
      t1.isNPOT = true :=
  Create_rounds_up_without_npot legacyRenderer 1 (newTexture 100 ⟨3, 3⟩ ⟨false, false, 0⟩ gray3x3)
    rfl (by decide) (by decide) (fun h => not_pow_two_three h.1) rfl

/-- C3, counterexample: on a renderer that supports NPOT textures a 3x3
texture is stored at its logical size, yet `Create()` sets `isNPOT`. -/
theorem Create_npot_supported_sets_flag :
    ((newTexture 100 ⟨3, 3⟩ ⟨false, false, 0⟩ gray3x3).Create npotRenderer 1).toOption.map
        (fun r => (npotRenderer.hasTextureNPOT, decide (r.1.storedSize = r.1.size), r.1.isNPOT))
      = some (true, true, true) := by
  decide

/-- C3, amended: `Create()` leaves `storedSize` equal to the logical size when
both sides are powers of two or the renderer supports NPOT textures; the flag
`isNPOT` is false exactly when both sides of the logical size are powers of
two, whatever the renderer supports; so a texture whose `storedSize` differs
from its logical size always has the flag set. -/
theorem Create_flag_follows_logical_size (renderer : OpenGLRenderer) (gen : Nat)
    (t : GLTexture2D) (hfree : t.tex = GL_NONE) :
    ∃ t1 ret calls, t.Create renderer gen = .ok (t1, ret, calls) ∧
      t1.size = t.size ∧
      (renderer.hasTextureNPOT = true ∨ ((∃ k, t.size.x = 2 ^ k) ∧ (∃ k, t.size.y = 2 ^ k)) →
        t1.storedSize = t1.size) ∧
      (t1.isNPOT = false ↔ ((∃ k, t.size.x = 2 ^ k) ∧ (∃ k, t.size.y = 2 ^ k))) ∧
      (t1.storedSize ≠ t1.size → t1.isNPOT = true) := by
  refine ⟨_, _, _, Create_of_free renderer gen t hfree, rfl, ?_, ?_, ?_⟩
  · rintro (hcap | hpow)
    · simp [hcap]
    · have := (size_eq_next_iff t.size).2 hpow
      by_cases hcap : renderer.hasTextureNPOT = true
      · simp [hcap]
      · simp only [hcap, if_false]
        exact this.symm
  · simp only [decide_eq_false_iff_not, ne_eq, not_not]
    exact size_eq_next_iff t.size
  · intro hne
    simp only [decide_eq_true_eq]
    intro heq
    apply hne
    by_cases hcap : renderer.hasTextureNPOT = true
    · simp [hcap]
    · simp only [hcap, if_false]
      exact heq.symm

/-- Witness of C3 (amended): a 3x3 texture on a renderer with NPOT support. -/
theorem Create_flag_follows_logical_size_witness :
    ∃ t1 ret calls,
      (newTexture 100 ⟨3, 3⟩ ⟨false, false, 0⟩ gray3x3).Create npotRenderer 1
        = .ok (t1, ret, calls) ∧
      t1.size = (⟨3, 3⟩ : Vec2i) ∧
      (npotRenderer.hasTextureNPOT = true ∨ ((∃ k, 3 = 2 ^ k) ∧ (∃ k, 3 = 2 ^ k)) →
        t1.storedSize = t1.size) ∧
      (t1.isNPOT = false ↔ ((∃ k, 3 = 2 ^ k) ∧ (∃ k, 3 = 2 ^ k))) ∧
      (t1.storedSize ≠ t1.size → t1.isNPOT = true) :=
  Create_flag_follows_logical_size npotRenderer 1
    (newTexture 100 ⟨3, 3⟩ ⟨false, false, 0⟩ gray3x3) rfl

/-- C9: `Create()` on an object with a live handle stops at the check
"leaking OpenGL texture" before any call is made, and only then; on an object
without a live handle, and only then, it runs to its end. -/
theorem Create_checks_for_live_handle (renderer : OpenGLRenderer) (gen : Nat) (t : GLTexture2D) :
    (t.tex ≠ GL_NONE ↔ t.Create renderer gen = .error ⟨.leakingTexture, []⟩) ∧
    (t.tex = GL_NONE ↔ ∃ res, t.Create renderer gen = .ok res) := by
  by_cases h : t.tex = GL_NONE
  · simp [GLTexture2D.Create, h]
  · simp [GLTexture2D.Create, h]

/-- C10: on an object without a live handle `Create()` leaves the cache at
wrap = repeat, min filter = nearest, mag filter = linear, stores the name the
backend produced and returns true exactly when that name is not `GL_NONE`. -/
theorem Create_resets_cache_and_reports_handle (renderer : OpenGLRenderer) (gen : Nat)
    (t : GLTexture2D) (hfree : t.tex = GL_NONE) :
    ∃ t1 ret calls, t.Create renderer gen = .ok (t1, ret, calls) ∧
      t1.wrapMode = .WrapRepeat ∧ t1.minFilter = .FilterNearest ∧ t1.magFilter = .FilterLinear ∧
      t1.tex = gen ∧ (ret = true ↔ gen ≠ GL_NONE) := by
  refine ⟨_, _, _, Create_of_free renderer gen t hfree, rfl, rfl, rfl, rfl, ?_⟩
  simp

/-- Witness of C10: a fresh texture whose cache holds the constructor's
linear/nearest filters, and a backend that produces the name 7. -/
theorem Create_resets_cache_and_reports_handle_witness :
    ∃ t1 ret calls,
      (newTexture 100 ⟨4, 4⟩ ⟨false, false, 0⟩ gray3x3).Create legacyRenderer 7
        = .ok (t1, ret, calls) ∧
      t1.wrapMode = .WrapRepeat ∧ t1.minFilter = .FilterNearest ∧ t1.magFilter = .FilterLinear ∧
      t1.tex = 7 ∧ (ret = true ↔ 7 ≠ GL_NONE) :=
  Create_resets_cache_and_reports_handle legacyRenderer 7
    (newTexture 100 ⟨4, 4⟩ ⟨false, false, 0⟩ gray3x3) rfl

/-! ## apply -/

theorem applyWrap_self (s : GLTextureStage) (t : GLTexture2D) :
    (applyWrap s t).1.self = t.self := by
  by_cases h : (if !t.isNPOT then s.wrapMode else WrapMode.WrapClamp) = t.wrapMode
  · simp only [applyWrap, h, ne_eq, not_true_eq_false, if_false]
  · simp only [applyWrap, h, ne_eq, not_false_eq_true, if_true]

theorem applyWrap_isNPOT (s : GLTextureStage) (t : GLTexture2D) :
    (applyWrap s t).1.isNPOT = t.isNPOT := by
  by_cases h : (if !t.isNPOT then s.wrapMode else WrapMode.WrapClamp) = t.wrapMode
  · simp only [applyWrap, h, ne_eq, not_true_eq_false, if_false]
  · simp only [applyWrap, h, ne_eq, not_false_eq_true, if_true]

theorem applyWrap_wrap (s : GLTextureStage) (t : GLTexture2D) :
    (applyWrap s t).1.wrapMode = (if !t.isNPOT then s.wrapMode else .WrapClamp) := by
  by_cases h : (if !t.isNPOT then s.wrapMode else WrapMode.WrapClamp) = t.wrapMode
  · simp only [applyWrap, h, ne_eq, not_true_eq_false, if_false]
  · simp only [applyWrap, h, ne_eq, not_false_eq_true, if_true]

theorem applyWrap_settled (s : GLTextureStage) (t : GLTexture2D)
    (h : t.wrapMode = (if !t.isNPOT then s.wrapMode else .WrapClamp)) :
    applyWrap s t = (t, []) := by
  simp only [applyWrap, ← h, ne_eq, not_true_eq_false, if_false]

theorem applyMinFilter_self (s : GLTextureStage) (t : GLTexture2D) :
    (applyMinFilter s t).1.self = t.self := by
  unfold applyMinFilter; split <;> rfl

theorem applyMinFilter_isNPOT (s : GLTextureStage) (t : GLTexture2D) :
    (applyMinFilter s t).1.isNPOT = t.isNPOT := by
  unfold applyMinFilter; split <;> rfl

theorem applyMinFilter_wrap (s : GLTextureStage) (t : GLTexture2D) :
    (applyMinFilter s t).1.wrapMode = t.wrapMode := by
  unfold applyMinFilter; split <;> rfl

theorem applyMinFilter_min (s : GLTextureStage) (t : GLTexture2D) :
    (applyMinFilter s t).1.minFilter = s.minFilter := by
  unfold applyMinFilter
  split
  · rfl
  · rename_i h
    simp only [ne_eq, not_not] at h
    exact h.symm

theorem applyMinFilter_settled (s : GLTextureStage) (t : GLTexture2D)
    (h : t.minFilter = s.minFilter) : applyMinFilter s t = (t, []) := by
  unfold applyMinFilter
  simp [h]

theorem applyMagFilter_self (s : GLTextureStage) (t : GLTexture2D) :
    (applyMagFilter s t).1.self = t.self := by
  unfold applyMagFilter; split <;> rfl

theorem applyMagFilter_isNPOT (s : GLTextureStage) (t : GLTexture2D) :
    (applyMagFilter s t).1.isNPOT = t.isNPOT := by
  unfold applyMagFilter; split <;> rfl

theorem applyMagFilter_wrap (s : GLTextureStage) (t : GLTexture2D) :
    (applyMagFilter s t).1.wrapMode = t.wrapMode := by
  unfold applyMagFilter; split <;> rfl

theorem applyMagFilter_min (s : GLTextureStage) (t : GLTexture2D) :
    (applyMagFilter s t).1.minFilter = t.minFilter := by
  unfold applyMagFilter; split <;> rfl

theorem applyMagFilter_mag (s : GLTextureStage) (t : GLTexture2D) :
    (applyMagFilter s t).1.magFilter = s.magFilter := by
  unfold applyMagFilter
  split
  · rfl
  · rename_i h
    simp only [ne_eq, not_not] at h
    exact h.symm

theorem applyMagFilter_settled (s : GLTextureStage) (t : GLTexture2D)
    (h : t.magFilter = s.magFilter) : applyMagFilter s t = (t, []) := by
  unfold applyMagFilter
  simp [h]

theorem apply_of_bound (stage : GLTextureStage) (t : GLTexture2D)
    (hbound : stage.tex = some t.self) :
    t.apply (some stage) =
      .ok ((applyMagFilter stage (applyMinFilter stage (applyWrap stage t).1).1).1,
           (applyWrap stage t).2 ++ (applyMinFilter stage (applyWrap stage t).1).2
             ++ (applyMagFilter stage (applyMinFilter stage (applyWrap stage t).1).1).2) := by
  simp [GLTexture2D.apply, hbound]

/-- C4: a texture that `Create()` left padded (`storedSize != size`) has the
cached wrap mode `WrapClamp` after `apply(stage)`, whatever the stage requests
and whatever was cached, and every wrap-mode call of that `apply` carries
`GL_CLAMP_TO_EDGE`. -/
theorem apply_padded_clamps (renderer : OpenGLRenderer) (gen : Nat) (t0 t1 : GLTexture2D)
    (ret : Bool) (calls0 : List GLCall)
    (hcreate : t0.Create renderer gen = .ok (t1, ret, calls0))
    (hpad : t1.storedSize ≠ t1.size)
    (t : GLTexture2D) (hflag : t.isNPOT = t1.isNPOT)
    (stage : GLTextureStage) (hbound : stage.tex = some t.self) :
    ∃ t2 calls, t.apply (some stage) = .ok (t2, calls) ∧
      t2.wrapMode = .WrapClamp ∧
      ∀ target pname param, GLCall.glTexParameteri target pname param ∈ calls →
        pname = .GL_TEXTURE_WRAP_S ∨ pname = .GL_TEXTURE_WRAP_T →
        param = .enum .GL_CLAMP_TO_EDGE := by
  have hnpot : t.isNPOT = true := by
    rw [hflag]; exact Create_padded_flag renderer gen t0 t1 ret calls0 hcreate hpad
  refine ⟨_, _, apply_of_bound stage t hbound, ?_, ?_⟩
  · unfold applyWrap applyMinFilter applyMagFilter
    by_cases h1 : WrapMode.WrapClamp = t.wrapMode <;>
      by_cases h2 : stage.minFilter = t.minFilter <;>
      by_cases h3 : stage.magFilter = t.magFilter <;>
      simp [hnpot, h1, h2, h3]
  · intro target pname param hmem hp
    unfold applyWrap applyMinFilter applyMagFilter at hmem
    by_cases h1 : WrapMode.WrapClamp = t.wrapMode <;>
      by_cases h2 : stage.minFilter = t.minFilter <;>
      by_cases h3 : stage.magFilter = t.magFilter <;>
      simp [hnpot, h1, h2, h3, arxToGlWrapMode] at hmem <;>
      rcases hp with rfl | rfl <;> simp_all

/-- Witness of C4: a 3x3 texture created without NPOT support (stored 4x4),
whose cache holds `WrapMirror`, applied to a stage that requests repeat. -/
theorem apply_padded_clamps_witness :
    ∃ t2 calls,
      ({ newTexture 100 ⟨3, 3⟩ ⟨false, false, 0⟩ gray3x3 with
          tex := 1, isNPOT := true, storedSize := ⟨4, 4⟩, wrapMode := .WrapMirror }
        : GLTexture2D).apply (some (boundStage 100)) = .ok (t2, calls) ∧
      t2.wrapMode = .WrapClamp ∧
      ∀ target pname param, GLCall.glTexParameteri target pname param ∈ calls →
        pname = .GL_TEXTURE_WRAP_S ∨ pname = .GL_TEXTURE_WRAP_T →
        param = .enum .GL_CLAMP_TO_EDGE :=
  apply_padded_clamps legacyRenderer 1 (newTexture 100 ⟨3, 3⟩ ⟨false, false, 0⟩ gray3x3)
    { newTexture 100 ⟨3, 3⟩ ⟨false, false, 0⟩ gray3x3 with
      tex := 1, wrapMode := .WrapRepeat, minFilter := .FilterNearest, magFilter := .FilterLinear,
      storedSize := ⟨4, 4⟩, isNPOT := true }
    true [.glGenTextures 1 1] rfl (by decide)
    { newTexture 100 ⟨3, 3⟩ ⟨false, false, 0⟩ gray3x3 with
      tex := 1, isNPOT := true, storedSize := ⟨4, 4⟩, wrapMode := .WrapMirror }
    rfl (boundStage 100) rfl

/-- C5, counterexample: on a renderer with NPOT support `Create()` stores a 3x3
texture at its logical size; a stage bound to it requests `WrapRepeat`, and
after `apply(stage)` the cached wrap mode is `WrapClamp`. -/
theorem apply_unpadded_npot_still_clamps :
    (((newTexture 100 ⟨3, 3⟩ ⟨false, false, 0⟩ gray3x3).Create npotRenderer 1).toOption.bind
        fun r => (r.1.apply (some (boundStage 100))).toOption.map
          fun a => (decide (r.1.storedSize = r.1.size), (boundStage 100).wrapMode, a.1.wrapMode))
      = some (true, .WrapRepeat, .WrapClamp) := by
  decide

/-- C5, amended: a texture for which `Create()` left the flag `isNPOT` false
(both sides of the logical size are powers of two; such a texture is not
padded) has, after `apply(stage)`, the cached wrap mode the stage requests. -/
theorem apply_unflagged_uses_requested_wrap (renderer : OpenGLRenderer) (gen : Nat)
    (t0 t1 : GLTexture2D) (ret : Bool) (calls0 : List GLCall)
    (hcreate : t0.Create renderer gen = .ok (t1, ret, calls0))
    (hpot : t1.isNPOT = false)
    (t : GLTexture2D) (hflag : t.isNPOT = t1.isNPOT)
    (stage : GLTextureStage) (hbound : stage.tex = some t.self) :
    t1.storedSize = t1.size ∧
    ((∃ k, t1.size.x = 2 ^ k) ∧ (∃ k, t1.size.y = 2 ^ k)) ∧
    ∃ t2 calls, t.apply (some stage) = .ok (t2, calls) ∧ t2.wrapMode = stage.wrapMode := by
  have hnpot : t.isNPOT = false := by rw [hflag]; exact hpot
  refine ⟨Create_unflagged_not_padded renderer gen t0 t1 ret calls0 hcreate hpot, ?_,
    _, _, apply_of_bound stage t hbound, ?_⟩
  · obtain ⟨_, hsize, _, hf⟩ := Create_ok_inv renderer gen t0 t1 ret calls0 hcreate
    rw [hf, decide_eq_false_iff_not, ne_eq, not_not] at hpot
    rw [hsize]
    exact (size_eq_next_iff t0.size).1 hpot
  · unfold applyWrap applyMinFilter applyMagFilter
    by_cases h1 : stage.wrapMode = t.wrapMode <;>
      by_cases h2 : stage.minFilter = t.minFilter <;>
      by_cases h3 : stage.magFilter = t.magFilter <;>
      simp [hnpot, h1, h2, h3]

/-- Witness of C5 (amended): a 4x4 texture whose cache holds `WrapClamp`,
applied to a stage that requests repeat. -/
theorem apply_unflagged_uses_requested_wrap_witness :
    (⟨4, 4⟩ : Vec2i) = ⟨4, 4⟩ ∧
    ((∃ k, 4 = 2 ^ k) ∧ (∃ k, 4 = 2 ^ k)) ∧
    ∃ t2 calls,
      ({ newTexture 100 ⟨4, 4⟩ ⟨false, false, 0⟩ gray3x3 with
          tex := 1, storedSize := ⟨4, 4⟩, wrapMode := .WrapClamp }
        : GLTexture2D).apply (some (boundStage 100)) = .ok (t2, calls) ∧
      t2.wrapMode = (boundStage 100).wrapMode :=
  apply_unflagged_uses_requested_wrap legacyRenderer 1
    (newTexture 100 ⟨4, 4⟩ ⟨false, false, 0⟩ gray3x3)
    { newTexture 100 ⟨4, 4⟩ ⟨false, false, 0⟩ gray3x3 with
      tex := 1, wrapMode := .WrapRepeat, minFilter := .FilterNearest, magFilter := .FilterLinear,
      storedSize := ⟨4, 4⟩, isNPOT := false }
    true [.glGenTextures 1 1] rfl rfl
    { newTexture 100 ⟨4, 4⟩ ⟨false, false, 0⟩ gray3x3 with
      tex := 1, storedSize := ⟨4, 4⟩, wrapMode := .WrapClamp }
    rfl (boundStage 100) rfl

/-- C6: when `apply(stage)` is called twice in a row with the same requested
wrap mode and filters, the second call makes no backend call at all and
leaves the texture state as the first call left it. -/
theorem apply_twice_is_silent (t : GLTexture2D) (stage : GLTextureStage)
    (hbound : stage.tex = some t.self) :
    ∃ t1 calls1, t.apply (some stage) = .ok (t1, calls1) ∧
      t1.apply (some stage) = .ok (t1, []) := by
  have hself : (applyMagFilter stage (applyMinFilter stage (applyWrap stage t).1).1).1.self
      = t.self := by
    rw [applyMagFilter_self, applyMinFilter_self, applyWrap_self]
  refine ⟨_, _, apply_of_bound stage t hbound, ?_⟩
  rw [apply_of_bound stage _ (by rw [hself]; exact hbound)]
  have hw : applyWrap stage (applyMagFilter stage (applyMinFilter stage (applyWrap stage t).1).1).1
      = ((applyMagFilter stage (applyMinFilter stage (applyWrap stage t).1).1).1, []) := by
    apply applyWrap_settled
    rw [applyMagFilter_wrap, applyMinFilter_wrap, applyWrap_wrap,
      applyMagFilter_isNPOT, applyMinFilter_isNPOT, applyWrap_isNPOT]
  have hn : applyMinFilter stage (applyMagFilter stage (applyMinFilter stage (applyWrap stage t).1).1).1
      = ((applyMagFilter stage (applyMinFilter stage (applyWrap stage t).1).1).1, []) := by
    apply applyMinFilter_settled
    rw [applyMagFilter_min, applyMinFilter_min]
  have hg : applyMagFilter stage (applyMagFilter stage (applyMinFilter stage (applyWrap stage t).1).1).1
      = ((applyMagFilter stage (applyMinFilter stage (applyWrap stage t).1).1).1, []) := by
    apply applyMagFilter_settled
    rw [applyMagFilter_mag]
  rw [hw, hn, hg]
  rfl

/-- Witness of C6: a fresh 4x4 texture with handle 1 and a stage bound to it. -/
theorem apply_twice_is_silent_witness :
    ∃ t1 calls1,
      ({ newTexture 100 ⟨4, 4⟩ ⟨true, false, 0⟩ gray3x3 with tex := 1, storedSize := ⟨4, 4⟩ }
        : GLTexture2D).apply (some (boundStage 100)) = .ok (t1, calls1) ∧
      t1.apply (some (boundStage 100)) = .ok (t1, []) :=
  apply_twice_is_silent
    { newTexture 100 ⟨4, 4⟩ ⟨true, false, 0⟩ gray3x3 with tex := 1, storedSize := ⟨4, 4⟩ }
    (boundStage 100) rfl

/-! ## Upload: the intensity fallback -/

theorem intensityLoop_ok (input : List Nat) :
    ∀ count i output, i + count ≤ input.length → 2 * (i + count) ≤ output.length →
      ∃ out, intensityLoop input count i output = .ok out ∧
        out.length = output.length ∧
        (∀ j, j < 2 * i → out[j]? = output[j]?) ∧
        (∀ k, i ≤ k → k < i + count → out[2 * k]? = input[k]? ∧ out[2 * k + 1]? = input[k]?) := by
  intro count
  induction count with
  | zero =>
    intro i output _ _
    exact ⟨output, rfl, rfl, fun _ _ => rfl, fun k h1 h2 => by omega⟩
  | succ count ih =>
    intro i output hin hout
    have hi : i < input.length := by omega
    obtain ⟨out, hrun, hlen, hlow, hpairs⟩ :=
      ih (i + 1) ((output.set (2 * i) input[i]).set (2 * i + 1) input[i])
        (by omega) (by simp only [List.length_set]; omega)
    refine ⟨out, ?_, ?_, ?_, ?_⟩
    · have h1 : ¬ output.length ≤ 2 * i := by omega
      have h2 : ¬ output.length ≤ 2 * i + 1 := by omega
      simp only [intensityLoop, List.getElem?_eq_getElem hi, h1, h2, if_false]
      exact hrun
    · simpa only [List.length_set] using hlen
    · intro j hj
      rw [hlow j (by omega)]
      rw [List.getElem?_set_ne (by omega), List.getElem?_set_ne (by omega)]
    · intro k hk1 hk2
      by_cases hk : k = i
      · subst hk
        have ha := hlow (2 * k) (by omega)
        have hb := hlow (2 * k + 1) (by omega)
        rw [ha, hb]
        constructor
        · rw [List.getElem?_set_ne (by omega), List.getElem?_set_self (by omega),
            List.getElem?_eq_getElem hi]
        · rw [List.getElem?_set_self (by simp only [List.length_set]; omega),
            List.getElem?_eq_getElem hi]
      · exact hpairs k (by omega) (by omega)

theorem uploadIntensity_of_fitting (renderer : OpenGLRenderer) (t : GLTexture2D)
    (hcap : renderer.hasIntensityTextures = false) (hflag : t.flags.Intensity = true)
    (hfmt : t.mFormat = .Format_L8)
    (hfit : t.storedSize.x * t.storedSize.y ≤ t.mImage.mData.length) :
    ∃ out, uploadIntensity renderer t =
        .ok { t with
              mImage := { Image.Create t.storedSize.x t.storedSize.y .Format_L8A8 with
                          mData := out }
              mFormat := .Format_L8A8
              flags := { t.flags with Intensity := false } } ∧
      out.length = 2 * (t.storedSize.x * t.storedSize.y) ∧
      ∀ k, k < t.storedSize.x * t.storedSize.y →
        out[2 * k]? = t.mImage.mData[k]? ∧ out[2 * k + 1]? = t.mImage.mData[k]? := by
  obtain ⟨out, hrun, hlen, _, hpairs⟩ :=
    intensityLoop_ok t.mImage.mData (t.storedSize.x * t.storedSize.y) 0
      (Image.Create t.storedSize.x t.storedSize.y .Format_L8A8).mData
      (by omega) (by simp [Image.Create, Format.bytesPerPixel]; omega)
  refine ⟨out, ?_, ?_, ?_⟩
  · simp only [uploadIntensity, hcap, hflag, hfmt, hrun]
    simp
  · rw [hlen]
    simp [Image.Create, Format.bytesPerPixel]
    omega
  · intro k hk
    exact hpairs k (by omega) (by omega)

theorem uploadMipmaps_image (renderer : OpenGLRenderer) (t : GLTexture2D) :
    (uploadMipmaps renderer t).1.mImage = t.mImage ∧
    (uploadMipmaps renderer t).1.mFormat = t.mFormat ∧
    (uploadMipmaps renderer t).1.flags.Intensity = t.flags.Intensity := by
  unfold uploadMipmaps
  by_cases h1 : t.storedSize = t.size <;> by_cases h2 : t.flags.HasMipmaps = true <;>
    simp [h1, h2, GLTexture2D.hasMipmaps]

/-- The unpadded case of the intensity fallback: when `storedSize` equals the
logical size and the image holds one byte per pixel of it, `Upload()` leaves
an L8A8 image of twice the length whose bytes `2i` and `2i + 1` both equal
byte `i` of the original, and the `Intensity` flag is clear. -/
theorem Upload_intensity_unpadded (renderer : OpenGLRenderer) (t : GLTexture2D)
    (hlive : t.tex ≠ GL_NONE)
    (hcap : renderer.hasIntensityTextures = false) (hflag : t.flags.Intensity = true)
    (hfmt : t.mFormat = .Format_L8) (hsame : t.storedSize = t.size)
    (hbytes : t.mImage.mData.length = t.size.x * t.size.y) :
    ∃ t1 r1 calls, t.Upload renderer = .ok (t1, r1, calls) ∧
      t1.mFormat = .Format_L8A8 ∧ t1.mImage.mFormat = .Format_L8A8 ∧
      t1.mImage.mData.length = 2 * t.mImage.mData.length ∧
      (∀ i, i < t.mImage.mData.length →
        t1.mImage.mData[2 * i]? = t.mImage.mData[i]? ∧
        t1.mImage.mData[2 * i + 1]? = t.mImage.mData[i]?) ∧
      t1.flags.Intensity = false := by
  obtain ⟨out, hrun, hlen, hpairs⟩ :=
    uploadIntensity_of_fitting renderer t hcap hflag hfmt (by rw [hsame, hbytes])
  rw [hsame, ← hbytes] at hlen hpairs
  simp only [GLTexture2D.Upload, hlive, if_false, hrun]
  simp only [uploadBGR, uploadFormats, Bool.and_eq_true, Bool.or_eq_true, decide_eq_true_eq,
    reduceCtorEq, or_self, and_false, if_false, Bool.false_eq_true]
  refine ⟨_, _, _, rfl, ?_, ?_, ?_, ?_, ?_⟩
  · rw [(uploadMipmaps_image _ _).2.1]
  · rw [(uploadMipmaps_image _ _).1]; rfl
  · rw [(uploadMipmaps_image _ _).1]; exact hlen
  · rw [(uploadMipmaps_image _ _).1]; exact hpairs
  · rw [(uploadMipmaps_image _ _).2.2]

/-- C7, the failing case: a 3x3 single-channel texture with the `Intensity`
flag, created on a renderer without NPOT and intensity support (stored 4x4).
`Upload()` sizes the converted image by `storedSize` and its loop asks for 16
bytes of the 9-byte image: the read of byte 9 is outside the buffer. -/
theorem Upload_intensity_padded_reads_past_image :
    (((newTexture 100 ⟨3, 3⟩ ⟨false, true, 0⟩ gray3x3).Create legacyRenderer 1).bind
        fun r => (r.1.Upload legacyRenderer).map fun u => u.1)
      = .error ⟨.readOutOfBounds 9, [.glBindTexture .GL_TEXTURE_2D 1]⟩ := by
  rfl

/-! ## Upload: the BGR fallback -/

theorem swapChannels3_length : ∀ l : List Nat, (swapChannels3 l).length = l.length
  | [] => rfl
  | [_] => rfl
  | [_, _] => rfl
  | _ :: _ :: _ :: rest => by
    simp only [swapChannels3, List.length_cons, swapChannels3_length rest]

theorem swapChannels4_length : ∀ l : List Nat, (swapChannels4 l).length = l.length
  | [] => rfl
  | [_] => rfl
  | [_, _] => rfl
  | [_, _, _] => rfl
  | _ :: _ :: _ :: _ :: rest => by
    simp only [swapChannels4, List.length_cons, swapChannels4_length rest]

theorem swapChannels3_pixel : ∀ (l : List Nat) (p : Nat), (p + 1) * 3 ≤ l.length →
    (swapChannels3 l)[p * 3]? = l[p * 3 + 2]? ∧
    (swapChannels3 l)[p * 3 + 1]? = l[p * 3 + 1]? ∧
    (swapChannels3 l)[p * 3 + 2]? = l[p * 3]?
  | [], p, h => by simp at h
  | [_], p, h => by simp at h; omega
  | [_, _], p, h => by simp at h; omega
  | c0 :: c1 :: c2 :: rest, 0, _ => by simp [swapChannels3]
  | c0 :: c1 :: c2 :: rest, p + 1, h => by
    have ih := swapChannels3_pixel rest p (by simp only [List.length_cons] at h; omega)
    have e0 : (p + 1) * 3 = p * 3 + 1 + 1 + 1 := by ring
    have e1 : (p + 1) * 3 + 1 = p * 3 + 1 + 1 + 1 + 1 := by ring
    have e2 : (p + 1) * 3 + 2 = p * 3 + 2 + 1 + 1 + 1 := by ring
    rw [e2, e1, e0]
    simp only [swapChannels3, List.getElem?_cons_succ]
    exact ih

theorem swapChannels4_pixel : ∀ (l : List Nat) (p : Nat), (p + 1) * 4 ≤ l.length →
    (swapChannels4 l)[p * 4]? = l[p * 4 + 2]? ∧
    (swapChannels4 l)[p * 4 + 1]? = l[p * 4 + 1]? ∧
    (swapChannels4 l)[p * 4 + 2]? = l[p * 4]? ∧
    (swapChannels4 l)[p * 4 + 3]? = l[p * 4 + 3]?
  | [], p, h => by simp at h
  | [_], p, h => by simp at h; omega
  | [_, _], p, h => by simp at h; omega
  | [_, _, _], p, h => by simp at h; omega
  | c0 :: c1 :: c2 :: c3 :: rest, 0, _ => by simp [swapChannels4]
  | c0 :: c1 :: c2 :: c3 :: rest, p + 1, h => by
    have ih := swapChannels4_pixel rest p (by simp only [List.length_cons] at h; omega)
    have e0 : (p + 1) * 4 = p * 4 + 1 + 1 + 1 + 1 := by ring
    have e1 : (p + 1) * 4 + 1 = p * 4 + 1 + 1 + 1 + 1 + 1 := by ring
    have e2 : (p + 1) * 4 + 2 = p * 4 + 2 + 1 + 1 + 1 + 1 := by ring
    have e3 : (p + 1) * 4 + 3 = p * 4 + 3 + 1 + 1 + 1 + 1 := by ring
    rw [e3, e2, e1, e0]
    simp only [swapChannels4, List.getElem?_cons_succ]
    exact ih

theorem uploadIntensity_skipped (renderer : OpenGLRenderer) (t : GLTexture2D)
    (h : renderer.hasIntensityTextures = true ∨ t.flags.Intensity = false) :
    uploadIntensity renderer t = .ok t := by
  rcases h with h | h <;> simp [uploadIntensity, h]

/-- C8, counterexample: a 2x1 BGR texture whose `Intensity` flag is set, on a
renderer without BGR transfer and without intensity textures. `Upload()` stops
at the check of the intensity fallback (the format is not L8) after binding the
texture; no conversion to RGB takes place. -/
theorem Upload_bgr_with_intensity_flag_aborts :
    legacyRenderer.hasBGRTextureTransfer = false ∧
    (newTexture 100 ⟨2, 1⟩ ⟨false, true, 0⟩ bgr2x1).mFormat = .Format_B8G8R8 ∧
    (((newTexture 100 ⟨2, 1⟩ ⟨false, true, 0⟩ bgr2x1).Create legacyRenderer 1).bind
        fun r => (r.1.Upload legacyRenderer).map fun u => u.1)
      = .error ⟨.intensityNotL8, [.glBindTexture .GL_TEXTURE_2D 1]⟩ :=
  ⟨rfl, rfl, rfl⟩

/-- C8, amended: on a renderer without BGR transfer, `Upload()` of a live
texture whose image and recorded format are B8G8R8 or B8G8R8A8, when the
intensity fallback does not apply (the `Intensity` flag is clear or the
renderer has intensity textures), leaves an image of format R8G8B8 resp.
R8G8B8A8 with the same dimensions and byte count, in which channels 0 and 2 of
every pixel are exchanged and channel 1 and the alpha channel are unchanged;
the recorded format is the same RGB format. -/
theorem Upload_converts_bgr_to_rgb (renderer : OpenGLRenderer) (t : GLTexture2D)
    (hlive : t.tex ≠ GL_NONE)
    (hcap : renderer.hasBGRTextureTransfer = false)
    (hfmt : t.mFormat = .Format_B8G8R8 ∨ t.mFormat = .Format_B8G8R8A8)
    (himg : t.mImage.mFormat = t.mFormat)
    (hint : renderer.hasIntensityTextures = true ∨ t.flags.Intensity = false) :
    ∃ t1 r1 calls, t.Upload renderer = .ok (t1, r1, calls) ∧
      t1.mFormat = (if t.mFormat = .Format_B8G8R8 then .Format_R8G8B8 else .Format_R8G8B8A8) ∧
      t1.mImage.mFormat = t1.mFormat ∧
      t1.mImage.mWidth = t.mImage.mWidth ∧ t1.mImage.mHeight = t.mImage.mHeight ∧
      t1.mImage.mData.length = t.mImage.mData.length ∧
      ∀ p, (p + 1) * t.mFormat.bytesPerPixel ≤ t.mImage.mData.length →
        t1.mImage.mData[p * t.mFormat.bytesPerPixel]?
          = t.mImage.mData[p * t.mFormat.bytesPerPixel + 2]? ∧
        t1.mImage.mData[p * t.mFormat.bytesPerPixel + 1]?
          = t.mImage.mData[p * t.mFormat.bytesPerPixel + 1]? ∧
        t1.mImage.mData[p * t.mFormat.bytesPerPixel + 2]?
          = t.mImage.mData[p * t.mFormat.bytesPerPixel]? ∧
        (t.mFormat = .Format_B8G8R8A8 →
          t1.mImage.mData[p * t.mFormat.bytesPerPixel + 3]?
            = t.mImage.mData[p * t.mFormat.bytesPerPixel + 3]?) := by
  simp only [GLTexture2D.Upload, hlive, if_false, uploadIntensity_skipped renderer t hint]
  rcases hfmt with hf | hf
  · have hconv : uploadBGR renderer t =
        { t with mImage := { t.mImage with mFormat := .Format_R8G8B8,
                                           mData := swapChannels3 t.mImage.mData },
                 mFormat := .Format_R8G8B8 } := by
      simp [uploadBGR, hcap, hf, Image.ConvertTo, himg]
    rw [hconv]
    by_cases hi : t.flags.Intensity = true
    · simp only [uploadFormats, hi, if_true]
      refine ⟨_, _, _, rfl, ?_, ?_, ?_, ?_, ?_, ?_⟩
      · rw [(uploadMipmaps_image _ _).2.1]; simp [hf]
      · rw [(uploadMipmaps_image _ _).1, (uploadMipmaps_image _ _).2.1]
      · rw [(uploadMipmaps_image _ _).1]
      · rw [(uploadMipmaps_image _ _).1]
      · rw [(uploadMipmaps_image _ _).1]; exact swapChannels3_length _
      · intro p hp
        rw [(uploadMipmaps_image _ _).1]
        simp only [hf, Format.bytesPerPixel] at hp ⊢
        obtain ⟨h0, h1, h2⟩ := swapChannels3_pixel t.mImage.mData p hp
        exact ⟨h0, h1, h2, fun h => by cases h⟩
    · simp only [uploadFormats, hi, if_false]
      refine ⟨_, _, _, rfl, ?_, ?_, ?_, ?_, ?_, ?_⟩
      · rw [(uploadMipmaps_image _ _).2.1]; simp [hf]
      · rw [(uploadMipmaps_image _ _).1, (uploadMipmaps_image _ _).2.1]
      · rw [(uploadMipmaps_image _ _).1]
      · rw [(uploadMipmaps_image _ _).1]
      · rw [(uploadMipmaps_image _ _).1]; exact swapChannels3_length _
      · intro p hp
        rw [(uploadMipmaps_image _ _).1]
        simp only [hf, Format.bytesPerPixel] at hp ⊢
        obtain ⟨h0, h1, h2⟩ := swapChannels3_pixel t.mImage.mData p hp
        exact ⟨h0, h1, h2, fun h => by cases h⟩
  · have hconv : uploadBGR renderer t =
        { t with mImage := { t.mImage with mFormat := .Format_R8G8B8A8,
                                           mData := swapChannels4 t.mImage.mData },
                 mFormat := .Format_R8G8B8A8 } := by
      simp [uploadBGR, hcap, hf, Image.ConvertTo, himg]
    rw [hconv]
    by_cases hi : t.flags.Intensity = true
    · simp only [uploadFormats, hi, if_true]
      refine ⟨_, _, _, rfl, ?_, ?_, ?_, ?_, ?_, ?_⟩
      · rw [(uploadMipmaps_image _ _).2.1]; simp [hf]
      · rw [(uploadMipmaps_image _ _).1, (uploadMipmaps_image _ _).2.1]
      · rw [(uploadMipmaps_image _ _).1]
      · rw [(uploadMipmaps_image _ _).1]
      · rw [(uploadMipmaps_image _ _).1]; exact swapChannels4_length _
      · intro p hp
        rw [(uploadMipmaps_image _ _).1]
        simp only [hf, Format.bytesPerPixel] at hp ⊢
        obtain ⟨h0, h1, h2, h3⟩ := swapChannels4_pixel t.mImage.mData p hp
        exact ⟨h0, h1, h2, fun _ => h3⟩
    · simp only [uploadFormats, hi, if_false]
      refine ⟨_, _, _, rfl, ?_, ?_, ?_, ?_, ?_, ?_⟩
      · rw [(uploadMipmaps_image _ _).2.1]; simp [hf]
      · rw [(uploadMipmaps_image _ _).1, (uploadMipmaps_image _ _).2.1]
      · rw [(uploadMipmaps_image _ _).1]
      · rw [(uploadMipmaps_image _ _).1]
      · rw [(uploadMipmaps_image _ _).1]; exact swapChannels4_length _
      · intro p hp
        rw [(uploadMipmaps_image _ _).1]
        simp only [hf, Format.bytesPerPixel] at hp ⊢
        obtain ⟨h0, h1, h2, h3⟩ := swapChannels4_pixel t.mImage.mData p hp
        exact ⟨h0, h1, h2, fun _ => h3⟩

/-- Witness of C8 (amended): the live 2x1 BGR texture on the renderer without
BGR transfer. -/
theorem Upload_converts_bgr_to_rgb_witness :
    ∃ t1 r1 calls, bgrTexture.Upload legacyRenderer = .ok (t1, r1, calls) ∧
      t1.mFormat = .Format_R8G8B8 ∧
      t1.mImage.mFormat = t1.mFormat ∧
      t1.mImage.mWidth = 2 ∧ t1.mImage.mHeight = 1 ∧
      t1.mImage.mData.length = 6 ∧
      ∀ p, (p + 1) * 3 ≤ 6 →
        t1.mImage.mData[p * 3]? = [1, 2, 3, 4, 5, 6][p * 3 + 2]? ∧
        t1.mImage.mData[p * 3 + 1]? = [1, 2, 3, 4, 5, 6][p * 3 + 1]? ∧
        t1.mImage.mData[p * 3 + 2]? = [1, 2, 3, 4, 5, 6][p * 3]? ∧
        (bgrTexture.mFormat = .Format_B8G8R8A8 →
          t1.mImage.mData[p * 3 + 3]? = [1, 2, 3, 4, 5, 6][p * 3 + 3]?) :=
  Upload_converts_bgr_to_rgb legacyRenderer bgrTexture (by decide) rfl (Or.inl rfl) rfl
    (Or.inr rfl)

/-! ## Upload: what a successful run consists of -/

theorem uploadIntensity_ok_inv (renderer : OpenGLRenderer) (t ti : GLTexture2D)
    (h : uploadIntensity renderer t = .ok ti) :
    ti.self = t.self ∧ ti.tex = t.tex ∧ ti.size = t.size ∧ ti.storedSize = t.storedSize ∧
    ti.flags.HasMipmaps = t.flags.HasMipmaps ∧
    (renderer.hasIntensityTextures = false → ti.flags.Intensity = false) := by
  unfold uploadIntensity at h
  by_cases hc : (!renderer.hasIntensityTextures && t.flags.Intensity) = true
  · rw [if_pos hc] at h
    by_cases hf : t.mFormat ≠ .Format_L8
    · rw [if_pos hf] at h
      cases h
    · rw [if_neg hf] at h
      dsimp only at h
      split at h
      · cases h
      · injection h with h
        subst h
        exact ⟨rfl, rfl, rfl, rfl, rfl, fun _ => rfl⟩
  · rw [if_neg hc] at h
    injection h with h
    subst h
    refine ⟨rfl, rfl, rfl, rfl, rfl, fun hcap => ?_⟩
    rw [hcap] at hc
    simpa using hc

theorem uploadBGR_frame (renderer : OpenGLRenderer) (t : GLTexture2D) :
    (uploadBGR renderer t).self = t.self ∧ (uploadBGR renderer t).tex = t.tex ∧
    (uploadBGR renderer t).size = t.size ∧ (uploadBGR renderer t).storedSize = t.storedSize ∧
    (uploadBGR renderer t).flags = t.flags := by
  unfold uploadBGR
  split <;> exact ⟨rfl, rfl, rfl, rfl, rfl⟩

theorem uploadBGR_not_bgr (renderer : OpenGLRenderer) (t : GLTexture2D)
    (hcap : renderer.hasBGRTextureTransfer = false) :
    (uploadBGR renderer t).mFormat ≠ .Format_B8G8R8 ∧
    (uploadBGR renderer t).mFormat ≠ .Format_B8G8R8A8 := by
  unfold uploadBGR
  by_cases h3 : t.mFormat = .Format_B8G8R8
  · simp [hcap, h3]
  · by_cases h4 : t.mFormat = .Format_B8G8R8A8
    · simp [hcap, h4]
    · simp [hcap, h3, h4]

theorem uploadMipmaps_frame (renderer : OpenGLRenderer) (t : GLTexture2D) :
    (uploadMipmaps renderer t).1.self = t.self ∧ (uploadMipmaps renderer t).1.tex = t.tex ∧
    (uploadMipmaps renderer t).1.size = t.size ∧
    (uploadMipmaps renderer t).1.storedSize = t.storedSize := by
  unfold uploadMipmaps
  by_cases h1 : t.storedSize = t.size <;> by_cases h2 : t.flags.HasMipmaps = true <;>
    simp [h1, h2, GLTexture2D.hasMipmaps]

theorem uploadMipmaps_padded (renderer : OpenGLRenderer) (t : GLTexture2D)
    (hpad : t.storedSize ≠ t.size) :
    (uploadMipmaps renderer t).1.flags.HasMipmaps = false ∧
    (uploadMipmaps renderer t).2 =
      [GLCall.glTexParameteri .GL_TEXTURE_2D .GL_TEXTURE_MAX_LEVEL (.lit 0)] := by
  simp [uploadMipmaps, hpad, GLTexture2D.hasMipmaps]

theorem uploadMipmaps_unpadded (renderer : OpenGLRenderer) (t : GLTexture2D)
    (hsame : t.storedSize = t.size) :
    (uploadMipmaps renderer t).1.flags.HasMipmaps = t.flags.HasMipmaps := by
  by_cases h2 : t.flags.HasMipmaps = true <;>
    simp [uploadMipmaps, hsame, h2, GLTexture2D.hasMipmaps]

theorem uploadTransfer_shape (t : GLTexture2D) (internal format : GLenum) :
    ∃ width height pixels, uploadTransfer t internal format =
      .glTexImage2D .GL_TEXTURE_2D 0 internal width height 0 format .GL_UNSIGNED_BYTE pixels := by
  unfold uploadTransfer
  split
  · exact ⟨_, _, _, rfl⟩
  · exact ⟨_, _, _, rfl⟩

theorem Upload_ok_inv (renderer : OpenGLRenderer) (t t1 : GLTexture2D) (r1 : OpenGLRenderer)
    (calls : List GLCall) (h : t.Upload renderer = .ok (t1, r1, calls)) :
    t.tex ≠ GL_NONE ∧
    ∃ ti, uploadIntensity renderer t = .ok ti ∧
    ∃ internalUnsized internalSized format,
      uploadFormats (uploadBGR renderer ti) = some (internalUnsized, internalSized, format) ∧
      t1 = (uploadMipmaps renderer (uploadBGR renderer ti)).1 ∧
      r1.GetTextureStage = Function.update renderer.GetTextureStage 0
          { renderer.GetTextureStage 0 with current := some t.self } ∧
      calls = [GLCall.glBindTexture .GL_TEXTURE_2D t.tex]
        ++ (uploadMipmaps renderer (uploadBGR renderer ti)).2
        ++ [uploadTransfer (uploadMipmaps renderer (uploadBGR renderer ti)).1
              (if renderer.hasSizedTextureFormats then internalSized else internalUnsized)
              format] := by
  unfold GLTexture2D.Upload at h
  by_cases hlive : t.tex = GL_NONE
  · rw [if_pos hlive] at h
    cases h
  · rw [if_neg hlive] at h
    refine ⟨hlive, ?_⟩
    dsimp only at h
    cases hi : uploadIntensity renderer t with
    | error f => rw [hi] at h; cases h
    | ok ti =>
      rw [hi] at h
      dsimp only at h
      cases hf : uploadFormats (uploadBGR renderer ti) with
      | none => rw [hf] at h; cases h
      | some d =>
        obtain ⟨u, sz, f⟩ := d
        rw [hf] at h
        dsimp only at h
        injection h with h
        injection h with h1 h2
        injection h2 with h2 h3
        refine ⟨ti, rfl, u, sz, f, hf, h1.symm, ?_, h3.symm⟩
        rw [← h2]

/-! ## Upload: mipmaps of padded textures -/

/-- C11: in a successful `Upload()` of a texture whose `storedSize` differs
from its logical size the `HasMipmaps` flag is clear afterwards, no
`GL_GENERATE_MIPMAP` call and no anisotropy call is made, and
`GL_TEXTURE_MAX_LEVEL` is set to 0; when `storedSize` equals the logical size
the `HasMipmaps` flag is left as it was. -/
theorem Upload_padded_disables_mipmaps (renderer : OpenGLRenderer) (t t1 : GLTexture2D)
    (r1 : OpenGLRenderer) (calls : List GLCall)
    (h : t.Upload renderer = .ok (t1, r1, calls)) :
    (t.storedSize ≠ t.size →
      t1.flags.HasMipmaps = false ∧
      (∀ target param, GLCall.glTexParameteri target .GL_GENERATE_MIPMAP param ∉ calls) ∧
      (∀ target pname param, GLCall.glTexParameterf target pname param ∉ calls) ∧
      GLCall.glTexParameteri .GL_TEXTURE_2D .GL_TEXTURE_MAX_LEVEL (.lit 0) ∈ calls) ∧
    (t.storedSize = t.size → t1.flags.HasMipmaps = t.flags.HasMipmaps) := by
  obtain ⟨_, ti, hi, u, sz, f, _, ht1, _, hcalls⟩ := Upload_ok_inv renderer t t1 r1 calls h
  obtain ⟨_, _, hsize, hstored, hmip, _⟩ := uploadIntensity_ok_inv renderer t ti hi
  obtain ⟨_, _, hsize2, hstored2, hflags2⟩ := uploadBGR_frame renderer ti
  constructor
  · intro hpad
    have hpad2 : (uploadBGR renderer ti).storedSize ≠ (uploadBGR renderer ti).size := by
      rw [hstored2, hsize2, hstored, hsize]; exact hpad
    obtain ⟨hclear, hlist⟩ := uploadMipmaps_padded renderer (uploadBGR renderer ti) hpad2
    obtain ⟨w, hh, px, htr⟩ := uploadTransfer_shape (uploadMipmaps renderer (uploadBGR renderer ti)).1
      (if renderer.hasSizedTextureFormats then sz else u) f
    rw [hlist, htr] at hcalls
    subst hcalls
    refine ⟨by rw [ht1]; exact hclear, ?_, ?_, ?_⟩
    · intro target param hmem
      simp at hmem
    · intro target pname param hmem
      simp at hmem
    · simp
  · intro hsame
    have hsame2 : (uploadBGR renderer ti).storedSize = (uploadBGR renderer ti).size := by
      rw [hstored2, hsize2, hstored, hsize]; exact hsame
    rw [ht1, uploadMipmaps_unpadded renderer _ hsame2, hflags2, hmip]

/-- Witness of C11: the 3x3 texture stored 4x4, whose `HasMipmaps` flag is set. -/
theorem Upload_padded_disables_mipmaps_witness :
    ∃ t1 r1 calls, paddedGrayTexture.Upload boundRenderer = .ok (t1, r1, calls) ∧
      ((paddedGrayTexture.storedSize ≠ paddedGrayTexture.size →
        t1.flags.HasMipmaps = false ∧
        (∀ target param, GLCall.glTexParameteri target .GL_GENERATE_MIPMAP param ∉ calls) ∧
        (∀ target pname param, GLCall.glTexParameterf target pname param ∉ calls) ∧
        GLCall.glTexParameteri .GL_TEXTURE_2D .GL_TEXTURE_MAX_LEVEL (.lit 0) ∈ calls) ∧
      (paddedGrayTexture.storedSize = paddedGrayTexture.size →
        t1.flags.HasMipmaps = paddedGrayTexture.flags.HasMipmaps)) :=
  ⟨_, _, _, rfl, Upload_padded_disables_mipmaps boundRenderer paddedGrayTexture _ _ _ rfl⟩

/-! ## Destroy: release and frame -/

theorem scrubStage_idem (self : Nat) (stage : GLTextureStage) :
    scrubStage self (scrubStage self stage) = scrubStage self stage := by
  unfold scrubStage
  by_cases h1 : stage.tex = some self <;> by_cases h2 : stage.current = some self <;>
    simp [h1, h2]

theorem scrubStage_frame (self : Nat) (stage : GLTextureStage) :
    (stage.tex ≠ some self → (scrubStage self stage).tex = stage.tex) ∧
    (stage.current ≠ some self → (scrubStage self stage).current = stage.current) ∧
    (scrubStage self stage).wrapMode = stage.wrapMode ∧
    (scrubStage self stage).minFilter = stage.minFilter ∧
    (scrubStage self stage).magFilter = stage.magFilter := by
  unfold scrubStage
  by_cases h1 : stage.tex = some self <;> by_cases h2 : stage.current = some self <;>
    simp [h1, h2]

theorem Destroy_tex (renderer : OpenGLRenderer) (t : GLTexture2D) :
    (t.Destroy renderer).1 = { t with tex := GL_NONE } := by
  unfold GLTexture2D.Destroy
  by_cases h : t.tex = 0
  · simp only [h, ne_eq, not_true_eq_false, if_false, GL_NONE]
    cases t
    simp_all
  · simp [h]

theorem Destroy_calls (renderer : OpenGLRenderer) (t : GLTexture2D) :
    (t.Destroy renderer).2.2 = if t.tex ≠ GL_NONE then [.glDeleteTextures 1 t.tex] else [] := by
  unfold GLTexture2D.Destroy
  by_cases h : t.tex = 0 <;> simp [h, GL_NONE]

/-- C12: `Destroy()` followed by the destructor releases the handle once: the
two calls together emit the one `glDeleteTextures` of the handle when it was
live and nothing when it was not; the second call emits nothing and leaves
the texture state and the renderer, with every stage, as the first left them. -/
theorem Destroy_twice_releases_once (renderer : OpenGLRenderer) (t : GLTexture2D) :
    (t.tex ≠ GL_NONE →
      (t.Destroy renderer).2.2
        ++ ((t.Destroy renderer).1.destruct (t.Destroy renderer).2.1).2.2
        = [.glDeleteTextures 1 t.tex]) ∧
    (t.tex = GL_NONE →
      (t.Destroy renderer).2.2
        ++ ((t.Destroy renderer).1.destruct (t.Destroy renderer).2.1).2.2 = []) ∧
    ((t.Destroy renderer).1.destruct (t.Destroy renderer).2.1).2.2 = [] ∧
    ((t.Destroy renderer).1.destruct (t.Destroy renderer).2.1).1 = (t.Destroy renderer).1 ∧
    ((t.Destroy renderer).1.destruct (t.Destroy renderer).2.1).2.1 = (t.Destroy renderer).2.1 := by
  have hsecond : ((t.Destroy renderer).1.destruct (t.Destroy renderer).2.1).2.2 = [] := by
    unfold GLTexture2D.destruct
    rw [Destroy_calls, Destroy_tex]
    simp
  refine ⟨?_, ?_, hsecond, ?_, ?_⟩
  · intro hlive
    rw [hsecond, Destroy_calls]
    simp [hlive]
  · intro hfree
    rw [hsecond, Destroy_calls]
    simp [hfree]
  · unfold GLTexture2D.destruct
    rw [Destroy_tex, Destroy_tex]
  · unfold GLTexture2D.destruct
    rw [Destroy_tex]
    simp only [GLTexture2D.Destroy]
    congr 1
    funext i
    by_cases hi : i < renderer.GetTextureStageCount
    · simp only [hi, if_true]
      exact scrubStage_idem _ _
    · simp only [hi, if_false]

/-- C17: `Destroy()` keeps the number of slots; in every slot a `tex` or
`current` reference that is not the destroyed object is unchanged, and so are
the modes the slot requests; the renderer's capability answers are unchanged;
of the texture's own fields only the handle can change. -/
theorem Destroy_changes_only_own_references (renderer : OpenGLRenderer) (t : GLTexture2D) :
    (t.Destroy renderer).2.1.GetTextureStageCount = renderer.GetTextureStageCount ∧
    (∀ i,
      ((renderer.GetTextureStage i).tex ≠ some t.self →
        ((t.Destroy renderer).2.1.GetTextureStage i).tex = (renderer.GetTextureStage i).tex) ∧
      ((renderer.GetTextureStage i).current ≠ some t.self →
        ((t.Destroy renderer).2.1.GetTextureStage i).current
          = (renderer.GetTextureStage i).current) ∧
      ((t.Destroy renderer).2.1.GetTextureStage i).wrapMode
        = (renderer.GetTextureStage i).wrapMode ∧
      ((t.Destroy renderer).2.1.GetTextureStage i).minFilter
        = (renderer.GetTextureStage i).minFilter ∧
      ((t.Destroy renderer).2.1.GetTextureStage i).magFilter
        = (renderer.GetTextureStage i).magFilter) ∧
    (t.Destroy renderer).1.wrapMode = t.wrapMode ∧
    (t.Destroy renderer).1.minFilter = t.minFilter ∧
    (t.Destroy renderer).1.magFilter = t.magFilter ∧
    (t.Destroy renderer).1.size = t.size ∧
    (t.Destroy renderer).1.storedSize = t.storedSize ∧
    (t.Destroy renderer).1.isNPOT = t.isNPOT ∧
    (t.Destroy renderer).1.flags = t.flags ∧
    (t.Destroy renderer).1.mFormat = t.mFormat ∧
    (t.Destroy renderer).1.mImage = t.mImage ∧
    (t.Destroy renderer).1.self = t.self := by
  refine ⟨rfl, ?_, ?_⟩
  · intro i
    by_cases hi : i < renderer.GetTextureStageCount
    · simp only [GLTexture2D.Destroy, hi, if_true]
      exact scrubStage_frame _ _
    · simp [GLTexture2D.Destroy, hi]
  · rw [Destroy_tex]
    exact ⟨rfl, rfl, rfl, rfl, rfl, rfl, rfl, rfl, rfl, rfl⟩

/-! ## updateMaxAnisotropy -/

/-- C16: with `HasMipmaps` clear `updateMaxAnisotropy()` makes no call and
leaves the texture and the renderer, with every slot, as they were; with the
flag set it binds the handle, then makes one anisotropy call with the
renderer's maximum anisotropy, and records the object as `current` in slot 0,
changing no other field of slot 0, no other slot and nothing of the texture. -/
theorem updateMaxAnisotropy_effect (renderer : OpenGLRenderer) (t : GLTexture2D) :
    (t.flags.HasMipmaps = false → t.updateMaxAnisotropy renderer = (t, renderer, [])) ∧
    (t.flags.HasMipmaps = true →
      (t.updateMaxAnisotropy renderer).1 = t ∧
      (t.updateMaxAnisotropy renderer).2.2 =
        [.glBindTexture .GL_TEXTURE_2D t.tex,
         .glTexParameterf .GL_TEXTURE_2D .GL_TEXTURE_MAX_ANISOTROPY_EXT
           renderer.getMaxAnisotropy] ∧
      (t.updateMaxAnisotropy renderer).2.1.GetTextureStage 0 =
        { renderer.GetTextureStage 0 with current := some t.self } ∧
      (∀ i, i ≠ 0 →
        (t.updateMaxAnisotropy renderer).2.1.GetTextureStage i = renderer.GetTextureStage i) ∧
      (t.updateMaxAnisotropy renderer).2.1.GetTextureStageCount
        = renderer.GetTextureStageCount ∧
      (t.updateMaxAnisotropy renderer).2.1.getMaxAnisotropy = renderer.getMaxAnisotropy) := by
  constructor
  · intro h
    simp [GLTexture2D.updateMaxAnisotropy, GLTexture2D.hasMipmaps, h]
  · intro h
    have hrun : t.updateMaxAnisotropy renderer =
        (t,
         { renderer with
           GetTextureStage :=
             Function.update renderer.GetTextureStage 0
               { renderer.GetTextureStage 0 with current := some t.self } },
         [.glBindTexture .GL_TEXTURE_2D t.tex,
          .glTexParameterf .GL_TEXTURE_2D .GL_TEXTURE_MAX_ANISOTROPY_EXT
            renderer.getMaxAnisotropy]) := by
      simp [GLTexture2D.updateMaxAnisotropy, GLTexture2D.hasMipmaps, h]
    rw [hrun]
    refine ⟨rfl, rfl, ?_, ?_, rfl, rfl⟩
    · simp
    · intro i hi
      simp [Function.update, hi]

/-! ## Upload: format resolution -/

theorem uploadMipmaps_no_transfer (renderer : OpenGLRenderer) (t : GLTexture2D)
    (target : GLenum) (level : Nat) (internal : GLenum) (width height border : Nat)
    (format type : GLenum) (pixels : List Nat) :
    GLCall.glTexImage2D target level internal width height border format type pixels
      ∉ (uploadMipmaps renderer t).2 := by
  unfold uploadMipmaps
  by_cases h1 : t.storedSize = t.size <;> by_cases h2 : t.flags.HasMipmaps = true <;>
    by_cases h3 : renderer.getMaxAnisotropy > 1 <;>
    simp [h1, h2, h3, GLTexture2D.hasMipmaps]

theorem Upload_transfer (renderer : OpenGLRenderer) (t t1 : GLTexture2D) (r1 : OpenGLRenderer)
    (calls : List GLCall) (h : t.Upload renderer = .ok (t1, r1, calls)) :
    ∃ ti internalUnsized internalSized fmt,
      uploadIntensity renderer t = .ok ti ∧
      uploadFormats (uploadBGR renderer ti) = some (internalUnsized, internalSized, fmt) ∧
      t1.mFormat = (uploadBGR renderer ti).mFormat ∧
      t1.flags.Intensity = (uploadBGR renderer ti).flags.Intensity ∧
      (∃ width height pixels,
        GLCall.glTexImage2D .GL_TEXTURE_2D 0
          (if renderer.hasSizedTextureFormats then internalSized else internalUnsized)
          width height 0 fmt .GL_UNSIGNED_BYTE pixels ∈ calls) ∧
      ∀ target level internal width height border format type pixels,
        GLCall.glTexImage2D target level internal width height border format type pixels ∈ calls →
        internal = (if renderer.hasSizedTextureFormats then internalSized else internalUnsized) ∧
        format = fmt := by
  obtain ⟨_, ti, hi, u, sz, f, hf, ht1, _, hcalls⟩ := Upload_ok_inv renderer t t1 r1 calls h
  obtain ⟨w, hh, px, htr⟩ := uploadTransfer_shape (uploadMipmaps renderer (uploadBGR renderer ti)).1
    (if renderer.hasSizedTextureFormats then sz else u) f
  rw [htr] at hcalls
  refine ⟨ti, u, sz, f, hi, hf, ?_, ?_, ⟨w, hh, px, ?_⟩, ?_⟩
  · rw [ht1]; exact (uploadMipmaps_image _ _).2.1
  · rw [ht1]; exact (uploadMipmaps_image _ _).2.2
  · rw [hcalls]; simp
  · intro target level internal width height border format type pixels hmem
    rw [hcalls] at hmem
    simp only [List.mem_append, List.mem_singleton, reduceCtorEq, false_or] at hmem
    rcases hmem with hmem | hmem
    · exact absurd hmem (uploadMipmaps_no_transfer _ _ _ _ _ _ _ _ _ _ _)
    · injection hmem with _ _ e3 _ _ _ e7 _ _
      exact ⟨e3, e7⟩

theorem uploadFormats_rows (t : GLTexture2D) (u s f : GLenum)
    (h : uploadFormats t = some (u, s, f)) :
    s ≠ u ∧
    (t.flags.Intensity = true → (u, s, f) = (.GL_INTENSITY, .GL_INTENSITY8, .GL_RED)) ∧
    (t.flags.Intensity = false →
      (t.mFormat = .Format_L8 → (u, s, f) = (.GL_LUMINANCE, .GL_LUMINANCE8, .GL_LUMINANCE)) ∧
      (t.mFormat = .Format_A8 → (u, s, f) = (.GL_ALPHA, .GL_ALPHA8, .GL_ALPHA)) ∧
      (t.mFormat = .Format_L8A8 →
        (u, s, f) = (.GL_LUMINANCE_ALPHA, .GL_LUMINANCE8_ALPHA8, .GL_LUMINANCE_ALPHA)) ∧
      (t.mFormat = .Format_R8G8B8 → (u, s, f) = (.GL_RGB, .GL_RGB8, .GL_RGB)) ∧
      (t.mFormat = .Format_B8G8R8 → (u, s, f) = (.GL_RGB, .GL_RGB8, .GL_BGR)) ∧
      (t.mFormat = .Format_R8G8B8A8 → (u, s, f) = (.GL_RGBA, .GL_RGBA8, .GL_RGBA)) ∧
      (t.mFormat = .Format_B8G8R8A8 → (u, s, f) = (.GL_RGBA, .GL_RGBA8, .GL_BGRA))) := by
  unfold uploadFormats at h
  by_cases hi : t.flags.Intensity = true
  · simp only [hi, if_true, Option.some.injEq, Prod.mk.injEq] at h
    obtain ⟨rfl, rfl, rfl⟩ := h
    simp [hi]
  · rw [if_neg hi] at h
    simp only [Bool.not_eq_true] at hi
    cases hm : t.mFormat <;> rw [hm] at h <;>
      simp only [Option.some.injEq, Prod.mk.injEq, reduceCtorEq] at h <;>
      obtain ⟨rfl, rfl, rfl⟩ := h <;> simp [hi]

/-- C13, counterexample: a live 2x2 texture whose format is none of the seven
named ones, with the `Intensity` flag set, on a renderer with native intensity
textures. `Upload()` does not look at the format: it succeeds and transfers
the pixels as `GL_INTENSITY` / `GL_RED`. -/
theorem Upload_unnamed_format_with_intensity_succeeds :
    otherIntensityTexture.tex ≠ GL_NONE ∧
    (otherIntensityTexture.Upload intensityRenderer).toOption.map
        (fun u => (u.1.mFormat, u.2.2))
      = some (.Format_Other 7,
          [.glBindTexture .GL_TEXTURE_2D 1,
           .glTexParameteri .GL_TEXTURE_2D .GL_TEXTURE_MAX_LEVEL (.lit 0),
           .glTexImage2D .GL_TEXTURE_2D 0 .GL_INTENSITY 2 2 0 .GL_RED .GL_UNSIGNED_BYTE
             [1, 2, 3, 4]]) :=
  ⟨by decide, rfl⟩

/-- C13, amended: `Upload()` on a live handle of a texture whose format is none
of the seven named ones stops at a failed check, having made only the bind
call (no pixel transfer), whenever the `Intensity` flag is clear or the
renderer has no native intensity textures: with the flag clear the check is
"Unsupported image format", with the flag set it is the L8 check of the
intensity fallback. -/
theorem Upload_unnamed_format_aborts (renderer : OpenGLRenderer) (t : GLTexture2D) (code : Nat)
    (hlive : t.tex ≠ GL_NONE) (hfmt : t.mFormat = .Format_Other code)
    (hgate : t.flags.Intensity = false ∨ renderer.hasIntensityTextures = false) :
    ∃ a, t.Upload renderer = .error a ∧
      a.emitted = [.glBindTexture .GL_TEXTURE_2D t.tex] ∧
      (∀ target level internal width height border format type pixels,
        GLCall.glTexImage2D target level internal width height border format type pixels
          ∉ a.emitted) ∧
      (t.flags.Intensity = false → a.fault = .unsupportedFormat (.Format_Other code)) ∧
      (t.flags.Intensity = true → a.fault = .intensityNotL8) := by
  by_cases hi : t.flags.Intensity = true
  · have hcap : renderer.hasIntensityTextures = false := by
      rcases hgate with h | h
      · rw [hi] at h; cases h
      · exact h
    have hrun : uploadIntensity renderer t = .error .intensityNotL8 := by
      simp [uploadIntensity, hcap, hi, hfmt]
    refine ⟨⟨.intensityNotL8, [.glBindTexture .GL_TEXTURE_2D t.tex]⟩, ?_, rfl, ?_, ?_, ?_⟩
    · simp only [GLTexture2D.Upload, hlive, if_false, hrun]
    · intros; simp
    · intro h; rw [hi] at h; cases h
    · intro _; rfl
  · simp only [Bool.not_eq_true] at hi
    have hrun : uploadIntensity renderer t = .ok t := uploadIntensity_skipped renderer t (Or.inr hi)
    have hbgr : uploadBGR renderer t = t := by
      simp [uploadBGR, hfmt]
    have hnone : uploadFormats t = none := by
      simp [uploadFormats, hi, hfmt]
    refine ⟨⟨.unsupportedFormat (.Format_Other code), [.glBindTexture .GL_TEXTURE_2D t.tex]⟩,
      ?_, rfl, ?_, ?_, ?_⟩
    · simp only [GLTexture2D.Upload, hlive, if_false, hrun, hbgr, hnone, hfmt]
    · intros; simp
    · intro _; rfl
    · intro h; rw [hi] at h; cases h

/-- Witness of C13 (amended): the 2x2 texture of the unnamed format with the
`Intensity` flag, on the renderer without intensity textures. -/
theorem Upload_unnamed_format_aborts_witness :
    ∃ a, otherIntensityTexture.Upload legacyRenderer = .error a ∧
      a.emitted = [.glBindTexture .GL_TEXTURE_2D 1] ∧
      (∀ target level internal width height border format type pixels,
        GLCall.glTexImage2D target level internal width height border format type pixels
          ∉ a.emitted) ∧
      (otherIntensityTexture.flags.Intensity = false →
        a.fault = .unsupportedFormat (.Format_Other 7)) ∧
      (otherIntensityTexture.flags.Intensity = true → a.fault = .intensityNotL8) :=
  Upload_unnamed_format_aborts legacyRenderer otherIntensityTexture 7 (by decide) rfl
    (Or.inr rfl)

/-- C14: in a successful `Upload()` the pixel transfer uses the row of the
fixed table selected by the `Intensity` flag and, when it is clear, by the
pixel format (both as they are after the fallbacks, which is how `Upload()`
leaves them); the internal format passed is the sized entry exactly when the
renderer reports sized formats, else the unsized entry. -/
theorem Upload_descriptors_follow_table (renderer : OpenGLRenderer) (t t1 : GLTexture2D)
    (r1 : OpenGLRenderer) (calls : List GLCall)
    (h : t.Upload renderer = .ok (t1, r1, calls)) :
    ∃ internalUnsized internalSized fmt,
      (t1.flags.Intensity = true →
        (internalUnsized, internalSized, fmt) = (.GL_INTENSITY, .GL_INTENSITY8, .GL_RED)) ∧
      (t1.flags.Intensity = false →
        (t1.mFormat = .Format_L8 →
          (internalUnsized, internalSized, fmt)
            = (.GL_LUMINANCE, .GL_LUMINANCE8, .GL_LUMINANCE)) ∧
        (t1.mFormat = .Format_A8 →
          (internalUnsized, internalSized, fmt) = (.GL_ALPHA, .GL_ALPHA8, .GL_ALPHA)) ∧
        (t1.mFormat = .Format_L8A8 →
          (internalUnsized, internalSized, fmt)
            = (.GL_LUMINANCE_ALPHA, .GL_LUMINANCE8_ALPHA8, .GL_LUMINANCE_ALPHA)) ∧
        (t1.mFormat = .Format_R8G8B8 →
          (internalUnsized, internalSized, fmt) = (.GL_RGB, .GL_RGB8, .GL_RGB)) ∧
        (t1.mFormat = .Format_B8G8R8 →
          (internalUnsized, internalSized, fmt) = (.GL_RGB, .GL_RGB8, .GL_BGR)) ∧
        (t1.mFormat = .Format_R8G8B8A8 →
          (internalUnsized, internalSized, fmt) = (.GL_RGBA, .GL_RGBA8, .GL_RGBA)) ∧
        (t1.mFormat = .Format_B8G8R8A8 →
          (internalUnsized, internalSized, fmt) = (.GL_RGBA, .GL_RGBA8, .GL_BGRA)) ∧
        ∀ code, t1.mFormat ≠ .Format_Other code) ∧
      (∃ width height pixels,
        GLCall.glTexImage2D .GL_TEXTURE_2D 0
          (if renderer.hasSizedTextureFormats then internalSized else internalUnsized)
          width height 0 fmt .GL_UNSIGNED_BYTE pixels ∈ calls) ∧
      ∀ target level internal width height border format type pixels,
        GLCall.glTexImage2D target level internal width height border format type pixels ∈ calls →
        format = fmt ∧
        (renderer.hasSizedTextureFormats = true → internal = internalSized) ∧
        (renderer.hasSizedTextureFormats = false → internal = internalUnsized) ∧
        (internal = internalSized ↔ renderer.hasSizedTextureFormats = true) := by
  obtain ⟨ti, u, sz, f, _, hf, hfmt1, hint1, hex, hall⟩ := Upload_transfer renderer t t1 r1 calls h
  obtain ⟨hne, hrowI, hrows⟩ := uploadFormats_rows _ u sz f hf
  rw [← hint1] at hrowI hrows
  rw [← hfmt1] at hrows
  refine ⟨u, sz, f, hrowI, ?_, hex, ?_⟩
  · intro hclear
    obtain ⟨r1', r2, r3, r4, r5, r6, r7⟩ := hrows hclear
    refine ⟨r1', r2, r3, r4, r5, r6, r7, ?_⟩
    intro code hcode
    rw [hfmt1] at hcode
    rw [hint1] at hclear
    simp [uploadFormats, hclear, hcode] at hf
  · intro target level internal width height border format type pixels hmem
    obtain ⟨hi, hfm⟩ := hall _ _ _ _ _ _ _ _ _ hmem
    refine ⟨hfm, ?_, ?_, ?_⟩
    · intro hs; rw [hi, hs]; rfl
    · intro hs; rw [hi, hs]; rfl
    · rw [hi]
      by_cases hs : renderer.hasSizedTextureFormats = true
      · simp [hs]
      · simp only [Bool.not_eq_true] at hs
        simp only [hs, Bool.false_eq_true, if_false, iff_false]
        intro e
        exact hne e.symm

/-- Witness of C14: the 2x2 single-channel texture with the `Intensity` flag on
a renderer with sized formats and without intensity textures. -/
theorem Upload_descriptors_follow_table_witness :
    ∃ t1 r1 calls, intensityTexture.Upload boundRenderer = .ok (t1, r1, calls) ∧
      (∃ internalUnsized internalSized fmt,
        (t1.flags.Intensity = true →
          (internalUnsized, internalSized, fmt) = (.GL_INTENSITY, .GL_INTENSITY8, .GL_RED)) ∧
        (t1.flags.Intensity = false →
          (t1.mFormat = .Format_L8 →
            (internalUnsized, internalSized, fmt)
              = (.GL_LUMINANCE, .GL_LUMINANCE8, .GL_LUMINANCE)) ∧
          (t1.mFormat = .Format_A8 →
            (internalUnsized, internalSized, fmt) = (.GL_ALPHA, .GL_ALPHA8, .GL_ALPHA)) ∧
          (t1.mFormat = .Format_L8A8 →
            (internalUnsized, internalSized, fmt)
              = (.GL_LUMINANCE_ALPHA, .GL_LUMINANCE8_ALPHA8, .GL_LUMINANCE_ALPHA)) ∧
          (t1.mFormat = .Format_R8G8B8 →
            (internalUnsized, internalSized, fmt) = (.GL_RGB, .GL_RGB8, .GL_RGB)) ∧
          (t1.mFormat = .Format_B8G8R8 →
            (internalUnsized, internalSized, fmt) = (.GL_RGB, .GL_RGB8, .GL_BGR)) ∧
          (t1.mFormat = .Format_R8G8B8A8 →
            (internalUnsized, internalSized, fmt) = (.GL_RGBA, .GL_RGBA8, .GL_RGBA)) ∧
          (t1.mFormat = .Format_B8G8R8A8 →
            (internalUnsized, internalSized, fmt) = (.GL_RGBA, .GL_RGBA8, .GL_BGRA)) ∧
          ∀ code, t1.mFormat ≠ .Format_Other code) ∧
        (∃ width height pixels,
          GLCall.glTexImage2D .GL_TEXTURE_2D 0
            (if boundRenderer.hasSizedTextureFormats then internalSized else internalUnsized)
            width height 0 fmt .GL_UNSIGNED_BYTE pixels ∈ calls) ∧
        ∀ target level internal width height border format type pixels,
          GLCall.glTexImage2D target level internal width height border format type pixels ∈ calls →
          format = fmt ∧
          (boundRenderer.hasSizedTextureFormats = true → internal = internalSized) ∧
          (boundRenderer.hasSizedTextureFormats = false → internal = internalUnsized) ∧
          (internal = internalSized ↔ boundRenderer.hasSizedTextureFormats = true)) :=
  ⟨_, _, _, rfl, Upload_descriptors_follow_table boundRenderer intensityTexture _ _ _ rfl⟩

/-! ## Upload: capability gaps -/

/-- C18: a successful `Upload()` makes a pixel transfer; on a renderer without
BGR transfer the transfer format of every pixel transfer is neither `GL_BGR`
nor `GL_BGRA`; on a renderer without native intensity textures the internal
format of every pixel transfer is neither `GL_INTENSITY` nor `GL_INTENSITY8`
and the `Intensity` flag is clear afterwards. -/
theorem Upload_hides_capability_gaps (renderer : OpenGLRenderer) (t t1 : GLTexture2D)
    (r1 : OpenGLRenderer) (calls : List GLCall)
    (h : t.Upload renderer = .ok (t1, r1, calls)) :
    (∃ internal width height format pixels,
      GLCall.glTexImage2D .GL_TEXTURE_2D 0 internal width height 0 format .GL_UNSIGNED_BYTE pixels
        ∈ calls) ∧
    (renderer.hasBGRTextureTransfer = false →
      ∀ target level internal width height border format type pixels,
        GLCall.glTexImage2D target level internal width height border format type pixels ∈ calls →
        format ≠ .GL_BGR ∧ format ≠ .GL_BGRA) ∧
    (renderer.hasIntensityTextures = false →
      t1.flags.Intensity = false ∧
      ∀ target level internal width height border format type pixels,
        GLCall.glTexImage2D target level internal width height border format type pixels ∈ calls →
        internal ≠ .GL_INTENSITY ∧ internal ≠ .GL_INTENSITY8) := by
  obtain ⟨ti, u, sz, f, hi, hf, _, hint1, ⟨w, hh, px, hex⟩, hall⟩ :=
    Upload_transfer renderer t t1 r1 calls h
  obtain ⟨_, hrowI, hrows⟩ := uploadFormats_rows _ u sz f hf
  refine ⟨⟨_, w, hh, f, px, hex⟩, ?_, ?_⟩
  · intro hcap target level internal width height border format type pixels hmem
    obtain ⟨_, hfm⟩ := hall _ _ _ _ _ _ _ _ _ hmem
    obtain ⟨hn3, hn4⟩ := uploadBGR_not_bgr renderer ti hcap
    rw [hfm]
    by_cases hflag : (uploadBGR renderer ti).flags.Intensity = true
    · have := hrowI hflag
      simp only [Prod.mk.injEq] at this
      rw [this.2.2]
      exact ⟨by decide, by decide⟩
    · simp only [Bool.not_eq_true] at hflag
      cases hm : (uploadBGR renderer ti).mFormat with
      | Format_B8G8R8 => exact absurd hm hn3
      | Format_B8G8R8A8 => exact absurd hm hn4
      | Format_Other code => simp [uploadFormats, hflag, hm] at hf
      | _ =>
        simp only [uploadFormats, hflag, hm, Bool.false_eq_true, if_false, Option.some.injEq,
          Prod.mk.injEq] at hf
        rw [← hf.2.2]
        exact ⟨by decide, by decide⟩
  · intro hcap
    have hclear : (uploadBGR renderer ti).flags.Intensity = false := by
      rw [(uploadBGR_frame renderer ti).2.2.2.2]
      exact (uploadIntensity_ok_inv renderer t ti hi).2.2.2.2.2 hcap
    refine ⟨by rw [hint1]; exact hclear, ?_⟩
    intro target level internal width height border format type pixels hmem
    obtain ⟨hin, _⟩ := hall _ _ _ _ _ _ _ _ _ hmem
    rw [hin]
    cases hm : (uploadBGR renderer ti).mFormat <;>
      simp only [uploadFormats, hclear, hm, Bool.false_eq_true, if_false, Option.some.injEq,
        Prod.mk.injEq, reduceCtorEq] at hf <;>
      obtain ⟨rfl, rfl, _⟩ := hf <;>
      by_cases hs : renderer.hasSizedTextureFormats = true <;>
      simp [hs]

/-- Witness of C18: the live 2x1 BGR texture on the renderer without BGR
transfer and without intensity textures. -/
theorem Upload_hides_capability_gaps_witness :
    ∃ t1 r1 calls, bgrTexture.Upload legacyRenderer = .ok (t1, r1, calls) ∧
      ((∃ internal width height format pixels,
        GLCall.glTexImage2D .GL_TEXTURE_2D 0 internal width height 0 format .GL_UNSIGNED_BYTE
          pixels ∈ calls) ∧
      (legacyRenderer.hasBGRTextureTransfer = false →
        ∀ target level internal width height border format type pixels,
          GLCall.glTexImage2D target level internal width height border format type pixels
            ∈ calls →
          format ≠ .GL_BGR ∧ format ≠ .GL_BGRA) ∧
      (legacyRenderer.hasIntensityTextures = false →
        t1.flags.Intensity = false ∧
        ∀ target level internal width height border format type pixels,
          GLCall.glTexImage2D target level internal width height border format type pixels
            ∈ calls →
          internal ≠ .GL_INTENSITY ∧ internal ≠ .GL_INTENSITY8)) :=
  ⟨_, _, _, rfl, Upload_hides_capability_gaps legacyRenderer bgrTexture _ _ _ rfl⟩

/-! ## apply: the filter blocks -/

theorem applyWrap_keeps (s : GLTextureStage) (t : GLTexture2D) :
    (applyWrap s t).1.minFilter = t.minFilter ∧ (applyWrap s t).1.magFilter = t.magFilter ∧
    (applyWrap s t).1.flags = t.flags := by
  by_cases h : (if !t.isNPOT then s.wrapMode else WrapMode.WrapClamp) = t.wrapMode
  · simp only [applyWrap, h, ne_eq, not_true_eq_false, if_false, and_self]
  · simp only [applyWrap, h, ne_eq, not_false_eq_true, if_true, and_self]

theorem applyWrap_calls (s : GLTextureStage) (t : GLTexture2D) :
    ∀ c ∈ (applyWrap s t).2, ∃ v,
      c = .glTexParameteri .GL_TEXTURE_2D .GL_TEXTURE_WRAP_T v ∨
      c = .glTexParameteri .GL_TEXTURE_2D .GL_TEXTURE_WRAP_S v := by
  intro c hc
  by_cases h : (if !t.isNPOT then s.wrapMode else WrapMode.WrapClamp) = t.wrapMode
  · simp only [applyWrap, h, ne_eq, not_true_eq_false, if_false, List.not_mem_nil] at hc
  · simp only [applyWrap, h, ne_eq, not_false_eq_true, if_true, List.mem_cons,
      List.mem_singleton, List.not_mem_nil, or_false] at hc
    rcases hc with hc | hc
    · exact ⟨_, Or.inl hc⟩
    · exact ⟨_, Or.inr hc⟩

theorem applyMinFilter_calls (s : GLTextureStage) (t : GLTexture2D) :
    (applyMinFilter s t).2 =
      if s.minFilter ≠ t.minFilter then
        [.glTexParameteri .GL_TEXTURE_2D .GL_TEXTURE_MIN_FILTER
          (.enum (arxToGlFilter (if t.hasMipmaps then 1 else 0) s.minFilter))]
      else [] := by
  unfold applyMinFilter
  split <;> rfl

theorem applyMinFilter_keeps (s : GLTextureStage) (t : GLTexture2D) :
    (applyMinFilter s t).1.magFilter = t.magFilter ∧ (applyMinFilter s t).1.flags = t.flags := by
  unfold applyMinFilter
  split <;> exact ⟨rfl, rfl⟩

theorem applyMagFilter_calls (s : GLTextureStage) (t : GLTexture2D) :
    (applyMagFilter s t).2 =
      if s.magFilter ≠ t.magFilter then
        [.glTexParameteri .GL_TEXTURE_2D .GL_TEXTURE_MAG_FILTER
          (.enum (arxToGlFilter 0 s.magFilter))]
      else [] := by
  unfold applyMagFilter
  split <;> rfl

/-- C15: `apply(stage)` makes a min-filter call exactly when the requested min
filter differs from the cached one, with the value
`arxToGlFilter[hasMipmaps() ? 1 : 0][requested]` (NEAREST / LINEAR without
mipmaps, NEAREST_MIPMAP_LINEAR / LINEAR_MIPMAP_LINEAR with mipmaps); it makes
a mag-filter call exactly when the requested mag filter differs from the
cached one, with the value of the row without mipmaps (NEAREST / LINEAR) also
when mipmaps are enabled; afterwards both cached filters are the requested
ones. -/
theorem apply_filter_calls (t : GLTexture2D) (stage : GLTextureStage)
    (hbound : stage.tex = some t.self) :
    ∃ t1 calls, t.apply (some stage) = .ok (t1, calls) ∧
      (∀ target param, GLCall.glTexParameteri target .GL_TEXTURE_MIN_FILTER param ∈ calls ↔
        (stage.minFilter ≠ t.minFilter ∧ target = .GL_TEXTURE_2D ∧
          param = .enum (arxToGlFilter (if t.hasMipmaps then 1 else 0) stage.minFilter))) ∧
      arxToGlFilter (if t.hasMipmaps then 1 else 0) stage.minFilter =
        (if t.flags.HasMipmaps then
          (if stage.minFilter = .FilterNearest then .GL_NEAREST_MIPMAP_LINEAR
           else .GL_LINEAR_MIPMAP_LINEAR)
         else (if stage.minFilter = .FilterNearest then .GL_NEAREST else .GL_LINEAR)) ∧
      (∀ target param, GLCall.glTexParameteri target .GL_TEXTURE_MAG_FILTER param ∈ calls ↔
        (stage.magFilter ≠ t.magFilter ∧ target = .GL_TEXTURE_2D ∧
          param = .enum (arxToGlFilter 0 stage.magFilter))) ∧
      arxToGlFilter 0 stage.magFilter =
        (if stage.magFilter = .FilterNearest then .GL_NEAREST else .GL_LINEAR) ∧
      t1.minFilter = stage.minFilter ∧ t1.magFilter = stage.magFilter := by
  refine ⟨_, _, apply_of_bound stage t hbound, ?_, ?_, ?_, ?_, ?_, ?_⟩
  · intro target param
    rw [applyMinFilter_calls, applyMagFilter_calls]
    simp only [GLTexture2D.hasMipmaps, (applyWrap_keeps stage t).1, (applyWrap_keeps stage t).2.2,
      (applyMinFilter_keeps stage _).1, (applyWrap_keeps stage t).2.1]
    constructor
    · intro hmem
      simp only [List.mem_append] at hmem
      rcases hmem with (hmem | hmem) | hmem
      · obtain ⟨v, hv | hv⟩ := applyWrap_calls stage t _ hmem <;> cases hv
      · by_cases hd : stage.minFilter = t.minFilter
        · simp [hd] at hmem
        · simp only [ne_eq, hd, not_false_eq_true, if_true, List.mem_singleton] at hmem
          injection hmem with e1 _ e3
          exact ⟨hd, e1, e3⟩
      · by_cases hd : stage.magFilter = t.magFilter
        · simp [hd] at hmem
        · simp [hd] at hmem
    · rintro ⟨hd, rfl, rfl⟩
      simp [hd]
  · cases hm : t.flags.HasMipmaps <;> cases hf : stage.minFilter <;>
      simp [GLTexture2D.hasMipmaps, hm, arxToGlFilter]
  · intro target param
    rw [applyMinFilter_calls, applyMagFilter_calls]
    simp only [(applyWrap_keeps stage t).1, (applyMinFilter_keeps stage _).1,
      (applyWrap_keeps stage t).2.1]
    constructor
    · intro hmem
      simp only [List.mem_append] at hmem
      rcases hmem with (hmem | hmem) | hmem
      · obtain ⟨v, hv | hv⟩ := applyWrap_calls stage t _ hmem <;> cases hv
      · by_cases hd : stage.minFilter = t.minFilter
        · simp [hd] at hmem
        · simp [hd] at hmem
      · by_cases hd : stage.magFilter = t.magFilter
        · simp [hd] at hmem
        · simp only [ne_eq, hd, not_false_eq_true, if_true, List.mem_singleton] at hmem
          injection hmem with e1 _ e3
          exact ⟨hd, e1, e3⟩
    · rintro ⟨hd, rfl, rfl⟩
      simp [hd]
  · cases hf : stage.magFilter <;> simp [arxToGlFilter]
  · rw [applyMagFilter_min, applyMinFilter_min]
  · rw [applyMagFilter_mag]

/-- Witness of C15: a live 4x4 texture with mipmaps whose cache holds
nearest/linear, applied to a stage that requests linear/linear. -/
theorem apply_filter_calls_witness :
    ∃ t1 calls,
      ({ newTexture 100 ⟨4, 4⟩ ⟨true, false, 0⟩ gray3x3 with
          tex := 1, storedSize := ⟨4, 4⟩, minFilter := .FilterNearest, magFilter := .FilterLinear }
        : GLTexture2D).apply (some (boundStage 100)) = .ok (t1, calls) ∧
      (∀ target param, GLCall.glTexParameteri target .GL_TEXTURE_MIN_FILTER param ∈ calls ↔
        ((boundStage 100).minFilter ≠ FilterMode.FilterNearest ∧ target = .GL_TEXTURE_2D ∧
          param = .enum (arxToGlFilter (if true then 1 else 0) (boundStage 100).minFilter))) ∧
      arxToGlFilter (if true then 1 else 0) (boundStage 100).minFilter =
        (if true then
          (if (boundStage 100).minFilter = .FilterNearest then .GL_NEAREST_MIPMAP_LINEAR
           else .GL_LINEAR_MIPMAP_LINEAR)
         else (if (boundStage 100).minFilter = .FilterNearest then .GL_NEAREST
           else .GL_LINEAR)) ∧
      (∀ target param, GLCall.glTexParameteri target .GL_TEXTURE_MAG_FILTER param ∈ calls ↔
        ((boundStage 100).magFilter ≠ FilterMode.FilterLinear ∧ target = .GL_TEXTURE_2D ∧
          param = .enum (arxToGlFilter 0 (boundStage 100).magFilter))) ∧
      arxToGlFilter 0 (boundStage 100).magFilter =
        (if (boundStage 100).magFilter = .FilterNearest then .GL_NEAREST else .GL_LINEAR) ∧
      t1.minFilter = (boundStage 100).minFilter ∧ t1.magFilter = (boundStage 100).magFilter :=
  apply_filter_calls
    { newTexture 100 ⟨4, 4⟩ ⟨true, false, 0⟩ gray3x3 with
      tex := 1, storedSize := ⟨4, 4⟩, minFilter := .FilterNearest, magFilter := .FilterLinear }
    (boundStage 100) rfl

/-! ## Upload: the accesses of the intensity loop -/

theorem intensityLoopReads_length : ∀ count i, (intensityLoopReads count i).length = count
  | 0, _ => rfl
  | count + 1, i => by
    simp only [intensityLoopReads, List.length_cons, intensityLoopReads_length count (i + 1)]

theorem intensityLoopReads_mem : ∀ count i r,
    r ∈ intensityLoopReads count i ↔ i ≤ r ∧ r < i + count
  | 0, i, r => by
    simp only [intensityLoopReads, List.not_mem_nil, false_iff]
    omega
  | count + 1, i, r => by
    simp only [intensityLoopReads, List.mem_cons, intensityLoopReads_mem count (i + 1) r]
    omega

theorem intensityLoopWrites_length : ∀ count i, (intensityLoopWrites count i).length = 2 * count
  | 0, _ => rfl
  | count + 1, i => by
    simp only [intensityLoopWrites, List.length_cons, intensityLoopWrites_length count (i + 1)]
    omega

theorem intensityLoopWrites_mem : ∀ count i w,
    w ∈ intensityLoopWrites count i ↔ 2 * i ≤ w ∧ w < 2 * (i + count)
  | 0, i, w => by
    simp only [intensityLoopWrites, List.not_mem_nil, false_iff]
    omega
  | count + 1, i, w => by
    simp only [intensityLoopWrites, List.mem_cons, intensityLoopWrites_mem count (i + 1) w]
    omega

theorem intensityLoop_overrun (input : List Nat) :
    ∀ count i output, i ≤ input.length → input.length < i + count →
      2 * (i + count) ≤ output.length →
      intensityLoop input count i output = .error (.readOutOfBounds input.length) := by
  intro count
  induction count with
  | zero => intro i output h1 h2 _; omega
  | succ count ih =>
    intro i output h1 h2 h3
    by_cases hi : i < input.length
    · have hw1 : ¬ output.length ≤ 2 * i := by omega
      have hw2 : ¬ output.length ≤ 2 * i + 1 := by omega
      simp only [intensityLoop, List.getElem?_eq_getElem hi, hw1, hw2, if_false]
      exact ih (i + 1) _ (by omega) (by omega) (by simp only [List.length_set]; omega)
    · have he : i = input.length := by omega
      have hnone : input[i]? = none := List.getElem?_eq_none (by omega)
      simp only [intensityLoop, hnone]
      rw [he]

theorem intensityLoop_ok_iff (input : List Nat) :
    ∀ count i output,
      (∃ out, intensityLoop input count i output = .ok out) ↔
        (∀ r ∈ intensityLoopReads count i, r < input.length) ∧
        (∀ w ∈ intensityLoopWrites count i, w < output.length) := by
  intro count
  induction count with
  | zero =>
    intro i output
    simp [intensityLoop, intensityLoopReads, intensityLoopWrites]
  | succ count ih =>
    intro i output
    by_cases hi : i < input.length
    · by_cases hw : 2 * i + 1 < output.length
      · have hw1 : ¬ output.length ≤ 2 * i := by omega
        have hw2 : ¬ output.length ≤ 2 * i + 1 := by omega
        simp only [intensityLoop, List.getElem?_eq_getElem hi, hw1, hw2, if_false,
          ih (i + 1) _, List.length_set, intensityLoopReads, intensityLoopWrites,
          List.mem_cons, forall_eq_or_imp]
        constructor
        · rintro ⟨h1, h2⟩
          exact ⟨⟨hi, h1⟩, by omega, by omega, h2⟩
        · rintro ⟨⟨_, h1⟩, _, _, h2⟩
          exact ⟨h1, h2⟩
      · constructor
        · rintro ⟨out, hout⟩
          simp only [intensityLoop, List.getElem?_eq_getElem hi] at hout
          by_cases hw1 : output.length ≤ 2 * i
          · rw [if_pos hw1] at hout; cases hout
          · rw [if_neg hw1, if_pos (by omega)] at hout; cases hout
        · rintro ⟨_, h2⟩
          have := h2 (2 * i + 1) (by simp [intensityLoopWrites])
          omega
    · constructor
      · rintro ⟨out, hout⟩
        have hnone : input[i]? = none := List.getElem?_eq_none (by omega)
        simp only [intensityLoop, hnone] at hout
        cases hout
      · rintro ⟨h1, _⟩
        have := h1 i (by simp [intensityLoopReads])
        omega

theorem Upload_intensity_fitting (renderer : OpenGLRenderer) (t : GLTexture2D)
    (hlive : t.tex ≠ GL_NONE)
    (hcap : renderer.hasIntensityTextures = false) (hflag : t.flags.Intensity = true)
    (hfmt : t.mFormat = .Format_L8)
    (hfit : t.storedSize.x * t.storedSize.y ≤ t.mImage.mData.length) :
    ∃ t1 r1 calls, t.Upload renderer = .ok (t1, r1, calls) ∧
      t1.mImage.mData.length = 2 * (t.storedSize.x * t.storedSize.y) ∧
      ∀ k, k < t.storedSize.x * t.storedSize.y →
        t1.mImage.mData[2 * k]? = t.mImage.mData[k]? ∧
        t1.mImage.mData[2 * k + 1]? = t.mImage.mData[k]? := by
  obtain ⟨out, hrun, hlen, hpairs⟩ := uploadIntensity_of_fitting renderer t hcap hflag hfmt hfit
  simp only [GLTexture2D.Upload, hlive, if_false, hrun]
  simp only [uploadBGR, uploadFormats, Bool.and_eq_true, Bool.or_eq_true, decide_eq_true_eq,
    reduceCtorEq, or_self, and_false, if_false, Bool.false_eq_true]
  refine ⟨_, _, _, rfl, ?_, ?_⟩
  · rw [(uploadMipmaps_image _ _).1]; exact hlen
  · rw [(uploadMipmaps_image _ _).1]; exact hpairs

theorem Upload_intensity_overrun (renderer : OpenGLRenderer) (t : GLTexture2D)
    (hlive : t.tex ≠ GL_NONE)
    (hcap : renderer.hasIntensityTextures = false) (hflag : t.flags.Intensity = true)
    (hfmt : t.mFormat = .Format_L8)
    (hover : t.mImage.mData.length < t.storedSize.x * t.storedSize.y) :
    t.Upload renderer =
      .error ⟨.readOutOfBounds t.mImage.mData.length, [.glBindTexture .GL_TEXTURE_2D t.tex]⟩ := by
  have hloop := intensityLoop_overrun t.mImage.mData (t.storedSize.x * t.storedSize.y) 0
    (Image.Create t.storedSize.x t.storedSize.y .Format_L8A8).mData
    (by omega) (by omega) (by simp [Image.Create, Format.bytesPerPixel]; omega)
  have hrun : uploadIntensity renderer t = .error (.readOutOfBounds t.mImage.mData.length) := by
    simp only [uploadIntensity, hcap, hflag, hfmt, hloop]
    simp
  simp only [GLTexture2D.Upload, hlive, if_false, hrun]

/-- C19: in the intensity fallback the loop dereferences the source at the
`storedSize.x * storedSize.y` indices from 0 and assigns the
`2 * storedSize.x * storedSize.y` indices of the converted image from 0. For
a source of `size.x * size.y` bytes all reads are inside the source exactly
when `storedSize.x * storedSize.y <= size.x * size.y` (in particular when
`storedSize == size`), and then `Upload()` completes with every pair of output
bytes equal to the source byte; otherwise `Upload()` stops at the first read
past the source. Every write is inside the converted image in all cases. -/
theorem Upload_intensity_loop_bounds (renderer : OpenGLRenderer) (t : GLTexture2D)
    (hlive : t.tex ≠ GL_NONE)
    (hcap : renderer.hasIntensityTextures = false) (hflag : t.flags.Intensity = true)
    (hfmt : t.mFormat = .Format_L8)
    (hbytes : t.mImage.mData.length = t.size.x * t.size.y) :
    (intensityLoopReads (t.storedSize.x * t.storedSize.y) 0).length
      = t.storedSize.x * t.storedSize.y ∧
    (intensityLoopWrites (t.storedSize.x * t.storedSize.y) 0).length
      = 2 * (t.storedSize.x * t.storedSize.y) ∧
    ((∀ r ∈ intensityLoopReads (t.storedSize.x * t.storedSize.y) 0, r < t.mImage.mData.length) ↔
      t.storedSize.x * t.storedSize.y ≤ t.size.x * t.size.y) ∧
    (∀ w ∈ intensityLoopWrites (t.storedSize.x * t.storedSize.y) 0,
      w < (Image.Create t.storedSize.x t.storedSize.y .Format_L8A8).mData.length) ∧
    ((∃ res, t.Upload renderer = .ok res) ↔
      ∀ r ∈ intensityLoopReads (t.storedSize.x * t.storedSize.y) 0, r < t.mImage.mData.length) ∧
    (t.storedSize.x * t.storedSize.y ≤ t.size.x * t.size.y →
      ∃ t1 r1 calls, t.Upload renderer = .ok (t1, r1, calls) ∧
        t1.mImage.mData.length = 2 * (t.storedSize.x * t.storedSize.y) ∧
        ∀ k, k < t.storedSize.x * t.storedSize.y →
          t1.mImage.mData[2 * k]? = t.mImage.mData[k]? ∧
          t1.mImage.mData[2 * k + 1]? = t.mImage.mData[k]?) ∧
    (t.size.x * t.size.y < t.storedSize.x * t.storedSize.y →
      t.Upload renderer =
        .error ⟨.readOutOfBounds (t.size.x * t.size.y), [.glBindTexture .GL_TEXTURE_2D t.tex]⟩) ∧
    (t.storedSize = t.size → ∃ res, t.Upload renderer = .ok res) := by
  have hreads : (∀ r ∈ intensityLoopReads (t.storedSize.x * t.storedSize.y) 0,
      r < t.mImage.mData.length) ↔ t.storedSize.x * t.storedSize.y ≤ t.size.x * t.size.y := by
    rw [← hbytes]
    constructor
    · intro hall
      by_contra hlt
      have := hall t.mImage.mData.length
        ((intensityLoopReads_mem _ _ _).2 ⟨Nat.zero_le _, by omega⟩)
      omega
    · intro hle r hr
      have := (intensityLoopReads_mem _ _ _).1 hr
      omega
  have hfitting : t.storedSize.x * t.storedSize.y ≤ t.size.x * t.size.y →
      ∃ t1 r1 calls, t.Upload renderer = .ok (t1, r1, calls) ∧
        t1.mImage.mData.length = 2 * (t.storedSize.x * t.storedSize.y) ∧
        ∀ k, k < t.storedSize.x * t.storedSize.y →
          t1.mImage.mData[2 * k]? = t.mImage.mData[k]? ∧
          t1.mImage.mData[2 * k + 1]? = t.mImage.mData[k]? := by
    intro hle
    exact Upload_intensity_fitting renderer t hlive hcap hflag hfmt (by rw [hbytes]; exact hle)
  have hover : t.size.x * t.size.y < t.storedSize.x * t.storedSize.y →
      t.Upload renderer =
        .error ⟨.readOutOfBounds (t.size.x * t.size.y),
          [.glBindTexture .GL_TEXTURE_2D t.tex]⟩ := by
    intro hlt
    rw [← hbytes]
    exact Upload_intensity_overrun renderer t hlive hcap hflag hfmt (by rw [hbytes]; exact hlt)
  refine ⟨intensityLoopReads_length _ _, intensityLoopWrites_length _ _, hreads, ?_, ?_,
    hfitting, hover, ?_⟩
  · intro w hw
    have := (intensityLoopWrites_mem _ _ _).1 hw
    simp only [Image.Create, Format.bytesPerPixel, List.length_replicate]
    omega
  · rw [hreads]
    constructor
    · rintro ⟨res, hres⟩
      by_contra hlt
      rw [hover (by omega)] at hres
      cases hres
    · intro hle
      obtain ⟨t1, r1, calls, hok, _⟩ := hfitting hle
      exact ⟨_, hok⟩
  · intro hsame
    obtain ⟨t1, r1, calls, hok, _⟩ := hfitting (by rw [hsame])
    exact ⟨_, hok⟩

/-- Witness of C19: the live 2x2 single-channel texture with the `Intensity`
flag on the renderer without intensity textures. -/
theorem Upload_intensity_loop_bounds_witness :
    (intensityLoopReads (intensityTexture.storedSize.x * intensityTexture.storedSize.y) 0).length
      = intensityTexture.storedSize.x * intensityTexture.storedSize.y ∧
    (intensityLoopWrites (intensityTexture.storedSize.x * intensityTexture.storedSize.y) 0).length
      = 2 * (intensityTexture.storedSize.x * intensityTexture.storedSize.y) ∧
    ((∀ r ∈ intensityLoopReads (intensityTexture.storedSize.x * intensityTexture.storedSize.y) 0,
        r < intensityTexture.mImage.mData.length) ↔
      intensityTexture.storedSize.x * intensityTexture.storedSize.y
        ≤ intensityTexture.size.x * intensityTexture.size.y) ∧
    (∀ w ∈ intensityLoopWrites (intensityTexture.storedSize.x * intensityTexture.storedSize.y) 0,
      w < (Image.Create intensityTexture.storedSize.x intensityTexture.storedSize.y
            .Format_L8A8).mData.length) ∧
    ((∃ res, intensityTexture.Upload legacyRenderer = .ok res) ↔
      ∀ r ∈ intensityLoopReads (intensityTexture.storedSize.x * intensityTexture.storedSize.y) 0,
        r < intensityTexture.mImage.mData.length) ∧
    (intensityTexture.storedSize.x * intensityTexture.storedSize.y
        ≤ intensityTexture.size.x * intensityTexture.size.y →
      ∃ t1 r1 calls, intensityTexture.Upload legacyRenderer = .ok (t1, r1, calls) ∧
        t1.mImage.mData.length
          = 2 * (intensityTexture.storedSize.x * intensityTexture.storedSize.y) ∧
        ∀ k, k < intensityTexture.storedSize.x * intensityTexture.storedSize.y →
          t1.mImage.mData[2 * k]? = intensityTexture.mImage.mData[k]? ∧
          t1.mImage.mData[2 * k + 1]? = intensityTexture.mImage.mData[k]?) ∧
    (intensityTexture.size.x * intensityTexture.size.y
        < intensityTexture.storedSize.x * intensityTexture.storedSize.y →
      intensityTexture.Upload legacyRenderer =
        .error ⟨.readOutOfBounds (intensityTexture.size.x * intensityTexture.size.y),
          [.glBindTexture .GL_TEXTURE_2D intensityTexture.tex]⟩) ∧
    (intensityTexture.storedSize = intensityTexture.size →
      ∃ res, intensityTexture.Upload legacyRenderer = .ok res) :=
  Upload_intensity_loop_bounds legacyRenderer intensityTexture (by decide) rfl rfl rfl rfl

/-! ## The min-filter cache and the mipmap flag -/

/-- C20: in the sequence `Create()` of a padded texture with `HasMipmaps` set,
`apply(stage)` requesting `FilterLinear`, `Upload()`, `apply(stage)` with the
same request, the second `apply` makes no call; the last min-filter value sent
is `GL_LINEAR_MIPMAP_LINEAR`, while `HasMipmaps` is now clear and the table
gives `GL_LINEAR` for the cached filter: "last value sent equals
`arxToGlFilter[hasMipmaps()][minFilter]`" is not preserved by `Upload()`. -/
theorem min_filter_cache_ignores_mipmap_flag :
    minFilterScenario.toOption =
      some { padded := true
             mipmapsAtCreate := true
             secondApplyCalls := []
             lastSent := some (.enum .GL_LINEAR_MIPMAP_LINEAR)
             mipmapsNow := false
             cachedNow := .FilterLinear
             tableNow := .GL_LINEAR } ∧
    (boundRenderer.GetTextureStage 0).minFilter = .FilterLinear ∧
    GLint.enum .GL_LINEAR_MIPMAP_LINEAR ≠ .enum .GL_LINEAR := by
  refine ⟨by decide, rfl, by decide⟩

end ArxLibertatis
